import Mathlib

/-!
Verification of the pooled-wager escrow lifecycle program.

This file is a shallow embedding, in Lean 4, of the on-chain lifecycle
program: the `Pool` record, the bounded participant registry, and the
instruction handlers (`create_pool`, `join_pool`, `donate`,
`set_lock_duration`, `cancel_pool`, `admin_close_pool`,
`sweep_expired_pool`, `unlock_pool`, `request_randomness`,
`select_winner`, `payout_winner`, `claim_refund`, `claim_rent`,
`pause_pool`, `unpause_pool`, `force_expire`, `finalize_forfeited_pool`).

Modelling conventions:
- `u64`/`u128`/`u16`/`u8` values are `Nat`, with explicit `% 2 ^ w`
  or checked-arithmetic guards exactly where the source wraps or checks;
  `i64` values (timestamps, durations) are `Int`.
- A public key is an opaque 32-byte identity; we model it as a `Nat`
  (its little-endian byte reading), with `0` for `Pubkey::default()`
  (which also equals the system program id, 32 zero bytes).
- The escrow token balance of the pool vault is carried explicitly in the
  `Chain` state; SPL transfers/burns out of the vault fail (aborting the
  whole instruction) when the balance is insufficient, mirroring CPI
  failure, and the caller's own token balance is an instruction input.
- Anchor account-address plumbing (PDA derivation checks, associated
  token address equality checks, token-program identity checks, account
  (de)allocation) is resolved by the host runtime before the handler
  logic runs; it is not part of the lifecycle logic and is omitted, with
  a comment at each omission site.
- Each instruction is a total function `... → Except ErrorCode ...`;
  an `Except.error` result models the transaction aborting with no state
  change, matching the host ledger's all-or-nothing semantics.
- SHA-256 is implemented concretely (FIPS 180-4), since pool ids, config
  fingerprints and winner normalization are all defined through it.
-/

namespace ML

/-! ## Byte-level helpers -/

/-- Little-endian byte encoding of `v` on `n` bytes (`to_le_bytes`). -/
def leBytes (n : Nat) (v : Nat) : List Nat :=
  (List.range n).map (fun i => v >>> (8 * i) % 256)

/-- Little-endian two's-complement byte encoding of an `i64`-style value. -/
def leBytesI (n : Nat) (v : Int) : List Nat :=
  leBytes n (v % (2 ^ (8 * n))).toNat

/-- Big-endian byte encoding of `v` on `n` bytes. -/
def beBytes (n : Nat) (v : Nat) : List Nat :=
  (List.range n).map (fun i => v >>> (8 * (n - 1 - i)) % 256)

/-- Read a little-endian byte list as a `Nat` (`from_le_bytes`). -/
def leNat (bs : List Nat) : Nat :=
  bs.foldr (fun b acc => b + 256 * acc) 0

/-! ## SHA-256 (FIPS 180-4), over byte lists -/

def add32 (a b : Nat) : Nat := (a + b) % 4294967296

def rotr32 (n x : Nat) : Nat :=
  ((x >>> n) ||| (x <<< (32 - n))) % 4294967296

def xor32 (a b : Nat) : Nat := a ^^^ b

def shaCh (e f g : Nat) : Nat := xor32 (e &&& f) ((e ^^^ 4294967295) &&& g)

def shaMaj (a b c : Nat) : Nat := xor32 (xor32 (a &&& b) (a &&& c)) (b &&& c)

def bigSigma0 (a : Nat) : Nat := xor32 (xor32 (rotr32 2 a) (rotr32 13 a)) (rotr32 22 a)

def bigSigma1 (e : Nat) : Nat := xor32 (xor32 (rotr32 6 e) (rotr32 11 e)) (rotr32 25 e)

def smallSigma0 (x : Nat) : Nat := xor32 (xor32 (rotr32 7 x) (rotr32 18 x)) (x >>> 3)

def smallSigma1 (x : Nat) : Nat := xor32 (xor32 (rotr32 17 x) (rotr32 19 x)) (x >>> 10)

/-- The 64 SHA-256 round constants (fractional parts of the cube roots
of the first 64 primes), in decimal. -/
def sha256K : List Nat :=
  [1116352408, 1899447441, 3049323471, 3921009573, 961987163,
   1508970993, 2453635748, 2870763221, 3624381080, 310598401,
   607225278, 1426881987, 1925078388, 2162078206, 2614888103,
   3248222580, 3835390401, 4022224774, 264347078, 604807628,
   770255983, 1249150122, 1555081692, 1996064986, 2554220882,
   2821834349, 2952996808, 3210313671, 3336571891, 3584528711,
   113926993, 338241895, 666307205, 773529912, 1294757372,
   1396182291, 1695183700, 1986661051, 2177026350, 2456956037,
   2730485921, 2820302411, 3259730800, 3345764771, 3516065817,
   3600352804, 4094571909, 275423344, 430227734, 506948616,
   659060556, 883997877, 958139571, 1322822218, 1537002063,
   1747873779, 1955562222, 2024104815, 2227730452, 2361852424,
   2428436474, 2756734187, 3204031479, 3329325298]

/-- The SHA-256 initial hash state, in decimal. -/
def sha256H0 : List Nat :=
  [1779033703, 3144134277, 1013904242,
   2773480762, 1359893119, 2600822924,
   528734635, 1541459225]

/-- The 16 message words (big-endian 32-bit) of a 64-byte block. -/
def blockWords (b : List Nat) : List Nat :=
  (List.range 16).map (fun i =>
    b.getD (4 * i) 0 <<< 24 + b.getD (4 * i + 1) 0 <<< 16 +
    b.getD (4 * i + 2) 0 <<< 8 + b.getD (4 * i + 3) 0)

/-- Message schedule: extend 16 words to 64. -/
def schedule (w0 : List Nat) : List Nat :=
  (List.range 48).foldl
    (fun w t =>
      w ++ [add32 (add32 (smallSigma1 (w.getD (t + 14) 0)) (w.getD (t + 9) 0))
              (add32 (smallSigma0 (w.getD (t + 1) 0)) (w.getD t 0))])
    w0

/-- One round of the compression function on state `[a,b,c,d,e,f,g,h]`. -/
def shaRound (w : List Nat) (s : List Nat) (t : Nat) : List Nat :=
  let a := s.getD 0 0
  let b := s.getD 1 0
  let c := s.getD 2 0
  let d := s.getD 3 0
  let e := s.getD 4 0
  let f := s.getD 5 0
  let g := s.getD 6 0
  let h := s.getD 7 0
  let t1 := add32 (add32 (add32 h (bigSigma1 e)) (add32 (shaCh e f g) (sha256K.getD t 0)))
              (w.getD t 0)
  let t2 := add32 (bigSigma0 a) (shaMaj a b c)
  [add32 t1 t2, a, b, c, add32 d t1, e, f, g]

/-- Compress one 64-byte block into the hash state. -/
def sha256Compress (hs : List Nat) (b : List Nat) : List Nat :=
  let w := schedule (blockWords b)
  let s := (List.range 64).foldl (shaRound w) hs
  (List.range 8).map (fun i => add32 (hs.getD i 0) (s.getD i 0))

/-- SHA-256 padding: `0x80`, zeros, then the 64-bit big-endian bit length. -/
def sha256Pad (msg : List Nat) : List Nat :=
  let l := msg.length
  let k := (119 - l % 64) % 64
  msg ++ [0x80] ++ List.replicate k 0 ++ beBytes 8 (8 * l)

/-- SHA-256 digest (32 bytes) of a byte list. -/
def sha256 (msg : List Nat) : List Nat :=
  let p := sha256Pad msg
  let final := (List.range (p.length / 64)).foldl
    (fun hs i => sha256Compress hs ((p.drop (64 * i)).take 64)) sha256H0
  final.flatMap (beBytes 4)

/-! ## Program constants (constants.rs) -/

/-- A public key, as the little-endian reading of its 32 bytes. -/
abbrev Pubkey := Nat

def MAX_PARTICIPANTS : Nat := 20

def MAX_FEE_BPS : Nat := 10000

def ZERO_PUBKEY : Pubkey := 0

def MIN_BET_TOKENS : Nat := 20

def MIN_DONATE_TOKENS : Nat := 20

def MIN_LOCK_DURATION : Int := 60

def MAX_LOCK_DURATION : Int := 43200

def POOL_OPEN_DURATION : Int := 604800

def SWEEP_DELAY : Int := 7 * 86400

def REASON_CANCELLED : Nat := 5

def REASON_ADMIN_CLOSED : Nat := 6

def REASON_EXPIRED : Nat := 1

def REASON_PAUSED : Nat := 2

def REASON_MAX_REACHED : Nat := 4

def EMERGENCY_DELAY : Int := 86400

def PAYOUT_TIMEOUT : Int := 7 * 86400

def FORFEIT_DELAY : Int := 30 * 86400

/-- The Switchboard on-demand program id: an opaque, fixed, nonzero
address; only its identity matters here. -/
def SWITCHBOARD_ID : Pubkey := 982451653

/-- The system program id is the all-zero public key, i.e. it coincides
with `Pubkey::default()`. -/
def SYSTEM_PROGRAM_ID : Pubkey := 0

/-! ## Errors (errors.rs names used by the handlers) -/

inductive ErrorCode where
  | InvalidPoolStatus
  | NotCreator
  | Paused
  | PoolExpired
  | PoolStillLocked
  | DonateClosedAfterUnlock
  | Unauthorized
  | Overflow
  | InvalidAmount
  | AlreadyParticipated
  | MaxParticipantsReached
  | InsufficientFunds
  | JoinClosedAfterUnlock
  | PoolUnavailableForJoin
  | ConfigMismatch
  | UninitializedAccount
  | AlreadyInitialized
  | ExcessiveFees
  | MintHasFreezeAuthority
  | MintHasMintAuthority
  | InvalidDecimals
  | TooManyParticipants
  | InvalidParticipantRange
  | InvalidLockDuration
  | ZeroSupply
  | NoParticipants
  | NoWinnerSelected
  | SpoofedDonation
  | PoolNotEmpty
  | RandomnessExpired
  | RandomnessNotCommitted
  | RandomnessNotResolved
  | InvalidRandomness
  | InvalidRandomnessAccount
  | InvalidWinnerAccount
  | TooEarlyForEmergency
  | AlreadyEnded
  | NotParticipant
  | PoolNotExpired
  | NotDeveloper
  | CannotDecreaseLockDuration
  | CannotChangeAfterJoins
  | RandomnessAlreadySet
  | ReentrancyInProgress
  deriving DecidableEq, Repr

/-! ## State (state.rs) -/

inductive PoolStatus where
  | Open
  | Locked
  | Unlocked
  | RandomnessCommitted
  | RandomnessRevealed
  | WinnerSelected
  | Ended
  | Cancelled
  | Closed
  deriving DecidableEq, Repr

/-- The `Pool` account record. Account-plumbing fields of the source
(`pool_token`, `participants_account`, `bump`) are resolved by the host
runtime and carry no lifecycle logic, so they are omitted. The
`processing` flag is the reentrancy guard field of the contract variant
of `Pool`; its declaration is not among the provided sources.
Modelled from the spec: a transient in-progress flag checked
(fail-fast) by `claim_refund` before its external transfer. -/
structure Pool where
  pool_id : Nat
  salt : List Nat
  mint : Pubkey
  creator : Pubkey
  start_time : Int
  duration : Int
  expire_time : Int
  end_time : Int
  unlock_time : Int
  close_time : Int
  max_participants : Nat
  lock_duration : Int
  lock_start_time : Int
  amount : Nat
  total_amount : Nat
  total_volume : Nat
  total_joins : Nat
  total_donations : Nat
  dev_wallet : Pubkey
  dev_fee_bps : Nat
  burn_fee_bps : Nat
  treasury_wallet : Pubkey
  treasury_fee_bps : Nat
  randomness : Nat
  randomness_account : Pubkey
  randomness_deadline_slot : Nat
  status : PoolStatus
  paused : Bool
  version : Nat
  schema : Nat
  config_hash : List Nat
  allow_mock : Bool
  randomness_commit_slot : Nat
  initialized : Bool
  last_join_time : Int
  status_reason : Nat
  winner : Pubkey
  processing : Bool
  deriving DecidableEq, Repr

/-- The bounded participant registry: a fixed-capacity array of
`MAX_PARTICIPANTS` keys plus a count. -/
structure Participants where
  list : List Pubkey
  count : Nat
  deriving DecidableEq, Repr

/-- Relevant fields of the token mint, as lifecycle inputs. -/
structure MintInfo where
  decimals : Nat
  supply : Nat
  freeze_authority : Option Pubkey
  mint_authority : Option Pubkey
  deriving DecidableEq, Repr

/-- The two clocks every instruction reads once: wall time and slot. -/
structure Clock where
  unix_timestamp : Int
  slot : Nat
  deriving DecidableEq, Repr

/-- The parsed payload of a Switchboard randomness account. -/
structure RandomnessData where
  seed_slot : Nat
  reveal_slot : Nat
  value : List Nat
  deriving DecidableEq, Repr

/-- A randomness account as passed to an instruction: its address, its
owning program, and its parsed data (`none` models a parse failure). -/
structure RandAccount where
  key : Pubkey
  owner : Pubkey
  data : Option RandomnessData
  deriving DecidableEq, Repr

/-- The full per-pool on-chain state one instruction operates on: the
pool record, its registry, the escrow vault balance and the mint. -/
structure Chain where
  pool : Pool
  parts : Participants
  poolBal : Nat
  mint : MintInfo
  deriving DecidableEq, Repr

/-- The amounts moved out of escrow by `payout_winner`. -/
structure PayoutAmounts where
  winner : Nat
  dev : Nat
  burn : Nat
  treasury : Nat
  dust : Nat
  deriving DecidableEq, Repr

/-- The amounts moved out of escrow by `claim_refund`. -/
structure RefundOut where
  to_user : Nat
  burned : Nat
  to_treasury : Nat
  deriving DecidableEq, Repr

/-! ## Guard and checked-arithmetic helpers -/

/-- `require!(c, e)`: abort with `e` unless `c` holds. -/
def req (c : Prop) [Decidable c] (e : ErrorCode) : Except ErrorCode Unit :=
  if c then .ok () else .error e

/-- `u64` checked addition. -/
def chkAdd64 (a b : Nat) : Except ErrorCode Nat :=
  if a + b < 2 ^ 64 then .ok (a + b) else .error .Overflow

/-- `u64` checked multiplication. -/
def chkMul64 (a b : Nat) : Except ErrorCode Nat :=
  if a * b < 2 ^ 64 then .ok (a * b) else .error .Overflow

/-- `u64` checked subtraction. -/
def chkSub64 (a b : Nat) : Except ErrorCode Nat :=
  if b ≤ a then .ok (a - b) else .error .Overflow

/-- `u32` checked addition. -/
def chkAdd32 (a b : Nat) : Except ErrorCode Nat :=
  if a + b < 2 ^ 32 then .ok (a + b) else .error .Overflow

/-- `u8` checked addition. -/
def chkAdd8 (a b : Nat) : Except ErrorCode Nat :=
  if a + b < 2 ^ 8 then .ok (a + b) else .error .Overflow

/-- An SPL transfer or burn out of the escrow vault: fails (aborting the
instruction) when the vault balance is insufficient; returns the new
vault balance. -/
def escrowOut (bal amt : Nat) : Except ErrorCode Nat :=
  if amt ≤ bal then .ok (bal - amt) else .error .InsufficientFunds

/-- Turn an optional value into a result (`ok_or` / fallible parse). -/
def okOfOption {β : Type} (o : Option β) (e : ErrorCode) : Except ErrorCode β :=
  match o with
  | some d => .ok d
  | none => .error e

/-! ## Pool helper methods (state.rs `impl Pool`) -/

def Pool.assert_open (p : Pool) : Except ErrorCode Unit :=
  req (p.status = .Open) .InvalidPoolStatus

def Pool.assert_not_paused (p : Pool) : Except ErrorCode Unit :=
  req (p.paused = false) .Paused

def Pool.assert_open_not_paused (p : Pool) : Except ErrorCode Unit := do
  p.assert_not_paused
  p.assert_open

def Pool.assert_owner (p : Pool) (user : Pubkey) : Except ErrorCode Unit :=
  req (user = p.creator) .NotCreator

def Pool.assert_active_join_period (p : Pool) (now : Int) : Except ErrorCode Unit :=
  req (now ≤ p.start_time + p.duration) .PoolExpired

def Pool.assert_unlocked_time (p : Pool) (now : Int) : Except ErrorCode Unit :=
  req (p.lock_start_time + p.lock_duration ≤ now) .PoolStillLocked

def Pool.can_join_status (p : Pool) : Prop :=
  p.status = .Open

instance (p : Pool) : Decidable p.can_join_status := by
  unfold Pool.can_join_status; infer_instance

def Pool.can_donate (p : Pool) (now : Int) : Except ErrorCode Unit :=
  if p.status = .Open then
    p.assert_active_join_period now
  else if p.status = .Locked then
    req (now < p.lock_start_time + p.lock_duration) .DonateClosedAfterUnlock
  else
    .error .DonateClosedAfterUnlock

/-- The contract variant's reentrancy-guard check.
Modelled from the spec: fail fast if the in-progress flag is held. -/
def Pool.assert_not_processing (p : Pool) : Except ErrorCode Unit :=
  req (p.processing = false) .ReentrancyInProgress

/-- The config fingerprint: SHA-256 over the immutable creation
parameters, serialized exactly as the handlers do (create_pool.rs
175-187, recomputed identically in join_pool.rs, donate.rs and
select_winner.rs). -/
def configHashBytes (p : Pool) : List Nat :=
  sha256 (p.salt ++ leBytes 1 p.max_participants ++ leBytesI 8 p.lock_duration ++
    leBytes 8 p.amount ++ leBytes 32 p.dev_wallet ++ leBytes 2 p.dev_fee_bps ++
    leBytes 2 p.burn_fee_bps ++ leBytes 32 p.treasury_wallet ++
    leBytes 2 p.treasury_fee_bps ++ leBytesI 8 p.start_time ++ leBytesI 8 p.duration)

/-! ## Instruction handlers

Each handler mirrors its source file's checks in source order; omitted
checks are the host-resolved account-plumbing ones (PDA seeds,
associated-token-address equality, token-program identity, token-account
owner/mint/frozen validation), noted where they occur. -/

/-- create_pool (ml/src/instructions/create_pool.rs). The caller is the
creator; `user_bal` is the caller's token balance. Note that the fee-sum
guard uses the source's plain `u16` addition, which wraps modulo
`2 ^ 16`. -/
def create_pool (ch : Chain) (clock : Clock) (user : Pubkey) (user_bal : Nat)
    (salt : List Nat) (max_participants : Nat) (lock_duration : Int) (amount : Nat)
    (dev_wallet : Pubkey) (dev_fee_bps burn_fee_bps : Nat)
    (treasury_wallet : Pubkey) (treasury_fee_bps : Nat) (allow_mock : Bool) :
    Except ErrorCode Chain := do
  req (ch.pool.initialized = false) .AlreadyInitialized
  req ((dev_fee_bps + burn_fee_bps + treasury_fee_bps) % 2 ^ 16 ≤ MAX_FEE_BPS) .ExcessiveFees
  req (ch.mint.freeze_authority = none) .MintHasFreezeAuthority
  req (ch.mint.mint_authority = none ∨ ch.mint.mint_authority = some ZERO_PUBKEY)
    .MintHasMintAuthority
  -- mint-owner = token-program check: account plumbing, omitted
  req (0 < ch.mint.supply) .ZeroSupply
  let decimals := ch.mint.decimals
  req (decimals = 6 ∨ decimals = 8 ∨ decimals = 9 ∨ decimals = 10) .InvalidDecimals
  req (max_participants ≤ MAX_PARTICIPANTS) .TooManyParticipants
  req (2 ≤ max_participants) .InvalidParticipantRange
  let min_native ← chkMul64 MIN_BET_TOKENS (10 ^ decimals)
  req (min_native ≤ amount) .InvalidAmount
  req (MIN_LOCK_DURATION ≤ lock_duration ∧ lock_duration ≤ MAX_LOCK_DURATION)
    .InvalidLockDuration
  let pool_id := leNat (List.take 8
    (sha256 (salt ++ leBytes 8 clock.slot ++ leBytes 32 user)))
  let pool0 : Pool :=
    { pool_id := pool_id
      salt := salt
      mint := ch.pool.mint
      creator := user
      start_time := clock.unix_timestamp
      duration := POOL_OPEN_DURATION
      expire_time := clock.unix_timestamp + POOL_OPEN_DURATION
      end_time := 0
      unlock_time := 0
      close_time := 0
      max_participants := max_participants
      lock_duration := lock_duration
      lock_start_time := 0
      amount := amount
      total_amount := amount
      total_volume := amount
      total_joins := 1
      total_donations := 0
      dev_wallet := dev_wallet
      dev_fee_bps := dev_fee_bps
      burn_fee_bps := burn_fee_bps
      treasury_wallet := treasury_wallet
      treasury_fee_bps := treasury_fee_bps
      randomness := 0
      randomness_account := ZERO_PUBKEY
      randomness_deadline_slot := 0
      status := .Open
      status_reason := 0
      paused := false
      version := 1
      schema := 1
      config_hash := []
      allow_mock := allow_mock
      randomness_commit_slot := 0
      initialized := false
      last_join_time := clock.unix_timestamp
      winner := 0
      processing := false }
  let pool1 := { pool0 with config_hash := configHashBytes pool0 }
  -- creator ATA address + token-account validation: account plumbing, omitted
  req (amount ≤ user_bal) .InsufficientFunds
  let parts : Participants :=
    { list := (List.replicate MAX_PARTICIPANTS ZERO_PUBKEY).set 0 user, count := 1 }
  .ok { ch with
        pool := { pool1 with initialized := true, winner := ZERO_PUBKEY }
        parts := parts
        poolBal := ch.poolBal + amount }

/-- join_pool (ml/src/instructions/join_pool.rs). -/
def join_pool (ch : Chain) (clock : Clock) (user : Pubkey) (user_bal amount : Nat) :
    Except ErrorCode Chain := do
  -- mint-owner = token-program check: account plumbing, omitted
  let now := clock.unix_timestamp
  let pool := ch.pool
  req (pool.initialized = true) .UninitializedAccount
  pool.assert_not_paused
  pool.assert_active_join_period now
  req pool.can_join_status .PoolUnavailableForJoin
  req (pool.lock_start_time = 0) .JoinClosedAfterUnlock
  -- pool-token mint/owner checks: account plumbing, omitted
  req (configHashBytes pool = pool.config_hash) .ConfigMismatch
  let min_native ← chkMul64 MIN_BET_TOKENS (10 ^ ch.mint.decimals)
  req (amount = pool.amount) .InvalidAmount
  req (min_native ≤ pool.amount) .InvalidAmount
  -- user ATA address + token-account validation: account plumbing, omitted
  req (amount ≤ user_bal) .InsufficientFunds
  let current_count := ch.parts.count
  let new_count ← chkAdd8 current_count 1
  req (new_count ≤ pool.max_participants) .MaxParticipantsReached
  req ((List.range current_count).all
    (fun i => ch.parts.list.getD i ZERO_PUBKEY ≠ user)) .AlreadyParticipated
  let parts1 : Participants :=
    { list := ch.parts.list.set current_count user, count := new_count }
  let total_amount ← chkAdd64 pool.total_amount amount
  let total_volume ← chkAdd64 pool.total_volume amount
  let total_joins ← chkAdd32 pool.total_joins 1
  let pool1 := { pool with
    total_amount := total_amount
    total_volume := total_volume
    total_joins := total_joins
    last_join_time := now }
  let pool2 :=
    if parts1.count = pool.max_participants then
      { pool1 with
        status := .Locked
        status_reason := REASON_MAX_REACHED
        lock_start_time := now }
    else pool1
  .ok { ch with pool := pool2, parts := parts1, poolBal := ch.poolBal + amount }

/-- donate (ml/src/instructions/donate.rs). The source multiplies
`MIN_DONATE_TOKENS * 10 ^ decimals` with a plain (wrapping) `u64`
multiplication. -/
def donate (ch : Chain) (clock : Clock) (user_bal amount : Nat) :
    Except ErrorCode Chain := do
  -- mint-owner = token-program check: account plumbing, omitted
  let now := clock.unix_timestamp
  let pool := ch.pool
  req (pool.initialized = true) .UninitializedAccount
  pool.assert_not_paused
  req (pool.status ≠ .Unlocked ∧ pool.status ≠ .Ended) .DonateClosedAfterUnlock
  req (configHashBytes pool = pool.config_hash) .ConfigMismatch
  -- user token-account validation: account plumbing, omitted
  pool.can_donate now
  let min_native := MIN_DONATE_TOKENS * 10 ^ ch.mint.decimals % 2 ^ 64
  req (min_native ≤ amount) .InvalidAmount
  req (amount ≤ user_bal) .InsufficientFunds
  -- pool-token mint/owner checks: account plumbing, omitted
  let total_amount ← chkAdd64 pool.total_amount amount
  let total_volume ← chkAdd64 pool.total_volume amount
  let pool1 := { pool with
    total_amount := total_amount
    total_volume := total_volume
    total_donations := (pool.total_donations + 1) % 2 ^ 32 }
  .ok { ch with pool := pool1, poolBal := ch.poolBal + amount }

/-- set_lock_duration (ml/src/instructions/set_lock_duration.rs). -/
def set_lock_duration (ch : Chain) (user : Pubkey) (new_lock_duration : Int) :
    Except ErrorCode Chain := do
  ch.pool.assert_not_paused
  ch.pool.assert_owner user
  ch.pool.assert_open
  req (MIN_LOCK_DURATION ≤ new_lock_duration ∧ new_lock_duration ≤ MAX_LOCK_DURATION)
    .InvalidLockDuration
  req (ch.pool.lock_duration ≤ new_lock_duration) .CannotDecreaseLockDuration
  req (ch.parts.count = 1) .CannotChangeAfterJoins
  .ok { ch with pool := { ch.pool with lock_duration := new_lock_duration } }

/-- cancel_pool (ml/src/instructions/cancel_pool.rs): creator cancels an
Open pool; no funds move. -/
def cancel_pool (ch : Chain) (clock : Clock) (user : Pubkey) :
    Except ErrorCode Chain := do
  req (ch.pool.initialized = true) .UninitializedAccount
  ch.pool.assert_not_paused
  ch.pool.assert_owner user
  ch.pool.assert_open
  .ok { ch with pool := { ch.pool with
    status := .Cancelled
    status_reason := REASON_CANCELLED
    close_time := clock.unix_timestamp } }

/-- admin_close_pool (ml/src/instructions/admin_close_pool.rs). -/
def admin_close_pool (ch : Chain) (clock : Clock) (user : Pubkey) :
    Except ErrorCode Chain := do
  ch.pool.assert_not_paused
  req (user = ch.pool.dev_wallet) .NotDeveloper
  ch.pool.assert_open
  .ok { ch with pool := { ch.pool with
    status := .Cancelled
    status_reason := REASON_ADMIN_CLOSED
    close_time := clock.unix_timestamp } }

/-- sweep_expired_pool (ml/src/instructions/sweep_expired_pool.rs). -/
def sweep_expired_pool (ch : Chain) (clock : Clock) (user : Pubkey) :
    Except ErrorCode Chain := do
  ch.pool.assert_not_paused
  let now := clock.unix_timestamp
  let pool := ch.pool
  let can_force := pool.allow_mock
  let too_early := now ≤ pool.expire_time + SWEEP_DELAY
  req (¬(too_early ∧ ¬can_force)) .PoolNotExpired
  req (user = pool.dev_wallet) .NotDeveloper
  pool.assert_open
  .ok { ch with pool := { pool with
    status := .Cancelled
    status_reason := REASON_EXPIRED
    close_time := now } }

/-- unlock_pool (ml/src/instructions/unlock_pool.rs). -/
def unlock_pool (ch : Chain) (clock : Clock) (user : Pubkey) :
    Except ErrorCode Chain := do
  let pool := ch.pool
  pool.assert_not_paused
  req (user = pool.dev_wallet) .Unauthorized
  req (pool.status = .Locked) .InvalidPoolStatus
  let now_ts := clock.unix_timestamp
  pool.assert_unlocked_time now_ts
  req (pool.lock_start_time ≠ 0) .InvalidLockDuration
  .ok { ch with pool := { pool with
    status := .Unlocked
    unlock_time := now_ts
    status_reason := 0 } }

/-- request_randomness (ml_contract/programs/ml/src/instructions/request_randomness.rs). -/
def request_randomness (ch : Chain) (clock : Clock) (user : Pubkey) (rnd : RandAccount) :
    Except ErrorCode Chain := do
  let pool := ch.pool
  pool.assert_not_paused
  req (pool.status = .Unlocked) .InvalidPoolStatus
  req (pool.lock_start_time + pool.lock_duration ≤ clock.unix_timestamp) .PoolStillLocked
  let now := clock.unix_timestamp
  let allowed :=
    if pool.unlock_time + PAYOUT_TIMEOUT < now then
      user = pool.dev_wallet ∨ user = pool.creator
    else
      user = pool.dev_wallet
  req allowed .Unauthorized
  let rk := rnd.key
  let is_mock := pool.allow_mock ∧ (rk = ZERO_PUBKEY ∨ rk = SYSTEM_PROGRAM_ID)
  if is_mock then
    req (pool.randomness_account = ZERO_PUBKEY) .RandomnessAlreadySet
    req (rk = ZERO_PUBKEY ∨ rk = SYSTEM_PROGRAM_ID) .InvalidRandomnessAccount
    let mock_randomness := leNat (List.take 16
      (sha256 (leBytes 8 pool.pool_id ++ leBytes 8 clock.slot ++ leBytes 32 pool.creator)))
    .ok { ch with pool := { pool with
      randomness := mock_randomness
      randomness_account := ZERO_PUBKEY
      status := .RandomnessCommitted
      randomness_commit_slot := clock.slot
      randomness_deadline_slot := clock.slot + 3000 } }
  else
    req (pool.randomness_account = ZERO_PUBKEY) .RandomnessAlreadySet
    req (rnd.owner = SWITCHBOARD_ID) .InvalidRandomnessAccount
    let randomness_data ← okOfOption rnd.data .InvalidRandomness
    req (randomness_data.seed_slot ≤ clock.slot ∧
      clock.slot - 300 ≤ randomness_data.seed_slot) .InvalidRandomness
    .ok { ch with pool := { pool with
      randomness_account := rk
      status := .RandomnessCommitted
      randomness_commit_slot := clock.slot
      randomness_deadline_slot := clock.slot + 3000 } }

/-- The winner-normalization map of select_winner: the little-endian u64
taken from bytes 0..8 of SHA-256(pool_id-le8 concatenated with the first
16 bytes of the randomness value). -/
def normalizeRandomness (pool_id : Nat) (value16 : List Nat) : Nat :=
  leNat (List.take 8 (sha256 (leBytes 8 pool_id ++ value16)))

/-- The shared tail of select_winner: reduce the normalized value modulo
the participant count, index the registry, persist winner and
randomness, and advance to WinnerSelected. -/
def select_finish (ch : Chain) (pool : Pool) (randomness_u128 normalized : Nat) :
    Except ErrorCode Chain := do
  let participant_count := ch.parts.count
  let winner_index := normalized % participant_count
  req (winner_index < ch.parts.count) .InvalidWinnerAccount
  let winner_pubkey := ch.parts.list.getD winner_index ZERO_PUBKEY
  .ok { ch with pool := { pool with
    winner := winner_pubkey
    randomness := randomness_u128
    status := .WinnerSelected
    status_reason := 0 } }

/-- The emergency-fallback pseudo-random value of select_winner and the
mock commitment of request_randomness: the little-endian u128 of the
first 16 bytes of SHA-256(pool_id-le8 concatenated with slot-le8 and the
creator bytes). -/
def emergencyRandomness (pool_id : Nat) (slot : Nat) (creator : Pubkey) : Nat :=
  leNat (List.take 16 (sha256 (leBytes 8 pool_id ++ leBytes 8 slot ++ leBytes 32 creator)))

/-- select_winner (ml/src/instructions/select_winner.rs). The transient
`status := RandomnessRevealed` assignments of the source are overwritten
by `WinnerSelected` before the instruction returns and are not
observable, so they are folded into `select_finish`. -/
def select_winner (ch : Chain) (clock : Clock) (user : Pubkey) (rnd : RandAccount) :
    Except ErrorCode Chain := do
  let now_ts := clock.unix_timestamp
  let pool := ch.pool
  pool.assert_not_paused
  req (pool.status ≠ .Ended) .AlreadyEnded
  req (pool.status ≠ .Ended ∧ pool.status ≠ .Cancelled ∧ pool.status ≠ .Closed) .AlreadyEnded
  req (pool.randomness_commit_slot ≠ 0 → clock.slot ≤ pool.randomness_commit_slot + 3000)
    .RandomnessExpired
  let is_timeout := pool.unlock_time + PAYOUT_TIMEOUT < now_ts
  req (¬is_timeout → user = pool.dev_wallet) .Unauthorized
  req (pool.status = .Unlocked ∨ pool.status = .RandomnessCommitted ∨
    pool.status = .RandomnessRevealed) .InvalidPoolStatus
  let participant_count := ch.parts.count
  req (0 < participant_count) .NoParticipants
  let pool_id := pool.pool_id
  req (configHashBytes pool = pool.config_hash) .ConfigMismatch
  if pool.allow_mock ∧ pool.randomness_account = ZERO_PUBKEY then
    let mock_u128 := pool.randomness
    req (mock_u128 ≠ 0) .RandomnessNotCommitted
    let normalized := normalizeRandomness pool_id (leBytes 16 mock_u128)
    select_finish ch pool mock_u128 normalized
  else
    req (pool.allow_mock = false → rnd.owner = SWITCHBOARD_ID) .InvalidRandomnessAccount
    req (pool.allow_mock = false → rnd.key = pool.randomness_account) .InvalidRandomnessAccount
    let randomness_data ← okOfOption rnd.data .InvalidRandomness
    req (pool.allow_mock = false → randomness_data.seed_slot ≠ 0) .RandomnessNotCommitted
    if randomness_data.reveal_slot = 0 then
      req (pool.allow_mock = true) .InvalidRandomness
      req (pool.unlock_time + EMERGENCY_DELAY < now_ts) .TooEarlyForEmergency
      req (user = pool.dev_wallet ∨ user = pool.creator) .Unauthorized
      let mock_randomness := emergencyRandomness pool_id clock.slot pool.creator
      let normalized := normalizeRandomness pool_id (leBytes 16 mock_randomness)
      select_finish ch { pool with randomness_account := ZERO_PUBKEY }
        mock_randomness normalized
    else
      req (pool.allow_mock = false → ¬randomness_data.value.all (· = 0))
        .RandomnessNotResolved
      req (randomness_data.value ≠ List.replicate 32 0) .RandomnessNotResolved
      let randomness_u128 := leNat (List.take 16 randomness_data.value)
      let normalized := normalizeRandomness pool_id (List.take 16 randomness_data.value)
      select_finish ch pool randomness_u128 normalized

/-- payout_winner (ml/src/instructions/payout_winner.rs). Returns the
new state together with the amounts moved out of escrow. -/
def payout_winner (ch : Chain) (clock : Clock) (user : Pubkey) :
    Except ErrorCode (Chain × PayoutAmounts) := do
  -- mint-owner = token-program check: account plumbing, omitted
  let now_ts := clock.unix_timestamp
  ch.pool.assert_not_paused
  req (ch.pool.status = .WinnerSelected) .InvalidPoolStatus
  let participant_count := ch.parts.count
  req (0 < participant_count) .NoParticipants
  let winner_pubkey := ch.pool.winner
  req (winner_pubkey ≠ ZERO_PUBKEY) .NoWinnerSelected
  -- winner-account equality + dev/treasury/winner ATA validation: account plumbing, omitted
  let is_timeout := ch.pool.unlock_time + PAYOUT_TIMEOUT < now_ts
  req (¬is_timeout → user = ch.pool.dev_wallet) .Unauthorized
  let total := ch.pool.total_amount
  req (ch.poolBal = total) .SpoofedDonation
  let dev_amount := (← chkMul64 total ch.pool.dev_fee_bps) / 10000
  let burn_amount := (← chkMul64 total ch.pool.burn_fee_bps) / 10000
  let treasury_amount := (← chkMul64 total ch.pool.treasury_fee_bps) / 10000
  let paid ← chkAdd64 (← chkAdd64 dev_amount burn_amount) treasury_amount
  let winner_amount ← chkSub64 total paid
  let bal1 ← escrowOut ch.poolBal winner_amount
  let bal2 ← escrowOut bal1 dev_amount
  let bal3 ← escrowOut bal2 treasury_amount
  let bal4 ← escrowOut bal3 burn_amount
  let dust := bal4
  let bal5 ← escrowOut bal4 dust
  req (bal5 = 0) .PoolNotEmpty
  let pool1 := { ch.pool with
    end_time := now_ts
    status_reason := 0
    total_amount := 0
    status := .Ended }
  .ok ({ ch with pool := pool1, parts := { ch.parts with count := 0 }, poolBal := bal5 },
       { winner := winner_amount
         dev := dev_amount
         burn := burn_amount
         treasury := treasury_amount
         dust := dust })

/-- First participant slot among `0..count` holding `k` (the find loop
of claim_refund). -/
def findParticipant (l : List Pubkey) (count : Nat) (k : Pubkey) : Option Nat :=
  (List.range count).find? (fun i => l.getD i ZERO_PUBKEY == k)

/-- The claim_refund removal loop: shift entries `idx+1 .. count-1` down
one slot. -/
def shiftLeftFrom (l : List Pubkey) (idx count : Nat) : List Pubkey :=
  (List.range (count - 1 - idx)).foldl
    (fun acc k => acc.set (idx + k) (acc.getD (idx + k + 1) ZERO_PUBKEY)) l

/-- claim_refund (ml_contract/programs/ml/src/instructions/claim_refund.rs).
Returns the new state and the amounts moved out of escrow. -/
def claim_refund (ch : Chain) (clock : Clock) (user : Pubkey) :
    Except ErrorCode (Chain × RefundOut) := do
  -- token-program + pool-token address checks: account plumbing, omitted
  ch.pool.assert_not_processing
  let pool := ch.pool
  let now := clock.unix_timestamp
  req (pool.status = .Cancelled) .InvalidPoolStatus
  req (pool.status_reason = REASON_CANCELLED ∨ pool.status_reason = REASON_ADMIN_CLOSED ∨
    pool.status_reason = REASON_EXPIRED) .InvalidPoolStatus
  let caller := user
  let is_creator := caller = pool.creator
  let is_dev := caller = pool.dev_wallet
  if is_dev then
    req (pool.close_time + FORFEIT_DELAY < now) .TooEarlyForEmergency
    -- treasury ATA validation: account plumbing, omitted
    let pool_balance := ch.poolBal
    -- the whole remaining balance moves to the treasury
    .ok ({ ch with parts := { ch.parts with count := 0 }, poolBal := 0 },
         { to_user := 0, burned := 0, to_treasury := pool_balance })
  else
    -- user ATA address + token-account validation: account plumbing, omitted
    let index ← okOfOption (findParticipant ch.parts.list ch.parts.count caller)
      .NotParticipant
    let bet := pool.amount
    let burn_amount := if is_creator then bet / 20 else 0
    let refund_amount := bet - burn_amount
    let bal1 ← escrowOut ch.poolBal burn_amount
    let bal2 ← escrowOut bal1 refund_amount
    let count := ch.parts.count
    let l1 := shiftLeftFrom ch.parts.list index count
    let l2 := l1.set (count - 1) ZERO_PUBKEY
    .ok ({ ch with parts := { list := l2, count := count - 1 }, poolBal := bal2 },
         { to_user := refund_amount, burned := burn_amount, to_treasury := 0 })

/-- The rent-recipient selection of claim_rent: the treasury for the
operator (after the forfeit delay), the creator otherwise. -/
def rent_recipient_of (pool : Pool) (user : Pubkey) (now : Int) :
    Except ErrorCode Pubkey :=
  if user = pool.dev_wallet then do
    req (pool.close_time + FORFEIT_DELAY < now) .TooEarlyForEmergency
    pure pool.treasury_wallet
  else
    pure pool.creator

/-- claim_rent (ml_contract/programs/ml/src/instructions/claim_rent.rs).
The record is closed (rent reclaimed) by the host after the handler; the
model keeps the record with its final field values. -/
def claim_rent (ch : Chain) (clock : Clock) (user : Pubkey) (close_target : Pubkey) :
    Except ErrorCode Chain := do
  -- mint-owner = token-program check: account plumbing, omitted
  let pool := ch.pool
  let now := clock.unix_timestamp
  req (pool.status = .Ended ∨ pool.status = .Cancelled ∨ pool.status = .Closed ∨
    pool.status = .WinnerSelected) .InvalidPoolStatus
  req (ch.parts.count = 0) .PoolNotEmpty
  let is_creator := user = pool.creator
  let is_dev := user = pool.dev_wallet
  req (is_creator ∨ is_dev) .Unauthorized
  let rent_recipient ← rent_recipient_of pool user now
  req (close_target = rent_recipient) .Unauthorized
  if pool.status = .Cancelled then
    -- remaining balance is burned, then the vault must be empty
    .ok { ch with
      pool := { pool with status := .Closed, status_reason := 0, close_time := now }
      poolBal := 0 }
  else do
    req (ch.poolBal = 0) .PoolNotEmpty
    .ok { ch with
      pool := { pool with status := .Closed, status_reason := 0, close_time := now }
      poolBal := 0 }

/-- pause_pool (ml/src/instructions/pause_pool.rs). -/
def pause_pool (ch : Chain) (user : Pubkey) : Except ErrorCode Chain := do
  req (user = ch.pool.dev_wallet) .Unauthorized
  req (ch.pool.status ≠ .Ended ∧ ch.pool.status ≠ .Closed) .InvalidPoolStatus
  .ok { ch with pool := { ch.pool with paused := true, status_reason := REASON_PAUSED } }

/-- unpause_pool (server/src/ml/src/instructions/unpause_pool.rs). -/
def unpause_pool (ch : Chain) (user : Pubkey) : Except ErrorCode Chain := do
  req (user = ch.pool.dev_wallet) .Unauthorized
  req (ch.pool.status ≠ .Ended ∧ ch.pool.status ≠ .Closed) .InvalidPoolStatus
  .ok { ch with pool := { ch.pool with paused := false, status_reason := 0 } }

/-- force_expire (server/src/ml/src/instructions/force_expire.rs). -/
def force_expire (ch : Chain) (clock : Clock) (user : Pubkey) :
    Except ErrorCode Chain := do
  req (ch.pool.allow_mock = true) .Unauthorized
  req (user = ch.pool.dev_wallet) .Unauthorized
  let now := clock.unix_timestamp
  req (ch.pool.start_time + 300 ≤ now) .TooEarlyForEmergency
  .ok { ch with pool := { ch.pool with expire_time := now - 10, duration := 0 } }

/-- Zero the first `n` registry slots (the wipe loop of
finalize_forfeited_pool). -/
def zeroPrefix (l : List Pubkey) (n : Nat) : List Pubkey :=
  (List.range n).foldl (fun acc i => acc.set i ZERO_PUBKEY) l

/-- finalize_forfeited_pool (ml/src/instructions/finalize_forfeited_pool.rs). -/
def finalize_forfeited_pool (ch : Chain) (clock : Clock) (user : Pubkey) :
    Except ErrorCode Chain := do
  -- mint-owner = token-program check: account plumbing, omitted
  let now := clock.unix_timestamp
  let pool := ch.pool
  req (pool.initialized = true) .UninitializedAccount
  pool.assert_not_paused
  req (pool.status = .Cancelled) .InvalidPoolStatus
  req (pool.status_reason = REASON_CANCELLED ∨ pool.status_reason = REASON_ADMIN_CLOSED ∨
    pool.status_reason = REASON_EXPIRED) .InvalidPoolStatus
  req (pool.close_time ≠ 0) .InvalidPoolStatus
  req (¬(now ≤ pool.close_time + FORFEIT_DELAY ∧ pool.allow_mock = false))
    .TooEarlyForEmergency
  req (user = pool.dev_wallet ∨ user = pool.treasury_wallet) .Unauthorized
  -- pool-token and treasury-token strict validation: account plumbing, omitted
  -- the whole remaining balance moves to the treasury
  let parts1 : Participants := { list := zeroPrefix ch.parts.list ch.parts.count, count := 0 }
  .ok { ch with
    pool := { pool with
      status := .Closed
      status_reason := 0
      close_time := now
      total_amount := 0 }
    parts := parts1
    poolBal := 0 }

/-! ## The operation alphabet and transactional step semantics -/

/-- One invocation of a lifecycle instruction, with its caller, the two
clocks, and its instruction-specific inputs. -/
inductive Op where
  | create (clock : Clock) (user : Pubkey) (user_bal : Nat) (salt : List Nat)
      (max_participants : Nat) (lock_duration : Int) (amount : Nat)
      (dev_wallet : Pubkey) (dev_fee_bps burn_fee_bps : Nat)
      (treasury_wallet : Pubkey) (treasury_fee_bps : Nat) (allow_mock : Bool)
  | join (clock : Clock) (user : Pubkey) (user_bal amount : Nat)
  | donateOp (clock : Clock) (user_bal amount : Nat)
  | setLockDuration (user : Pubkey) (d : Int)
  | cancel (clock : Clock) (user : Pubkey)
  | adminClose (clock : Clock) (user : Pubkey)
  | sweepExpired (clock : Clock) (user : Pubkey)
  | unlock (clock : Clock) (user : Pubkey)
  | requestRand (clock : Clock) (user : Pubkey) (rnd : RandAccount)
  | selectWin (clock : Clock) (user : Pubkey) (rnd : RandAccount)
  | payout (clock : Clock) (user : Pubkey)
  | refund (clock : Clock) (user : Pubkey)
  | rent (clock : Clock) (user : Pubkey) (close_target : Pubkey)
  | pause (user : Pubkey)
  | unpause (user : Pubkey)
  | forceExpireOp (clock : Clock) (user : Pubkey)
  | finalizeForfeited (clock : Clock) (user : Pubkey)

/-- Dispatch one instruction invocation against the pool state. -/
def step (ch : Chain) : Op → Except ErrorCode Chain
  | .create clock user user_bal salt mp ld amount dw dfb bfb tw tfb am =>
      create_pool ch clock user user_bal salt mp ld amount dw dfb bfb tw tfb am
  | .join clock user user_bal amount => join_pool ch clock user user_bal amount
  | .donateOp clock user_bal amount => donate ch clock user_bal amount
  | .setLockDuration user d => set_lock_duration ch user d
  | .cancel clock user => cancel_pool ch clock user
  | .adminClose clock user => admin_close_pool ch clock user
  | .sweepExpired clock user => sweep_expired_pool ch clock user
  | .unlock clock user => unlock_pool ch clock user
  | .requestRand clock user rnd => request_randomness ch clock user rnd
  | .selectWin clock user rnd => select_winner ch clock user rnd
  | .payout clock user => (payout_winner ch clock user).map Prod.fst
  | .refund clock user => (claim_refund ch clock user).map Prod.fst
  | .rent clock user close_target => claim_rent ch clock user close_target
  | .pause user => pause_pool ch user
  | .unpause user => unpause_pool ch user
  | .forceExpireOp clock user => force_expire ch clock user
  | .finalizeForfeited clock user => finalize_forfeited_pool ch clock user

/-- Transactional semantics: a failed instruction leaves the persisted
state unchanged (all-or-nothing). -/
def execOp (ch : Chain) (op : Op) : Chain :=
  match step ch op with
  | .ok ch2 => ch2
  | .error _ => ch

/-- Run a sequence of instruction invocations. -/
def steps (ch : Chain) (l : List Op) : Chain :=
  l.foldl execOp ch

/-! ## Inversion lemmas for the guard combinators -/

theorem req_bind_ok {c : Prop} [Decidable c] {e : ErrorCode} {α : Type}
    {k : Unit → Except ErrorCode α} {r : α}
    (h : (req c e >>= k) = .ok r) : c ∧ k () = .ok r := by
  unfold req at h
  split at h
  · exact ⟨by assumption, h⟩
  · exact Except.noConfusion h

theorem req_ok {c : Prop} [Decidable c] {e : ErrorCode}
    (h : req c e = .ok ()) : c := by
  unfold req at h
  split at h
  · assumption
  · exact Except.noConfusion h

theorem req_not_holds {c : Prop} [Decidable c] {e : ErrorCode}
    (h : ¬c) : req c e = .error e := by
  unfold req
  simp [h]

theorem chkAdd64_bind_ok {a b : Nat} {α : Type} {k : Nat → Except ErrorCode α} {r : α}
    (h : (chkAdd64 a b >>= k) = .ok r) : a + b < 2 ^ 64 ∧ k (a + b) = .ok r := by
  unfold chkAdd64 at h
  split at h
  · exact ⟨by assumption, h⟩
  · exact Except.noConfusion h

theorem chkMul64_bind_ok {a b : Nat} {α : Type} {k : Nat → Except ErrorCode α} {r : α}
    (h : (chkMul64 a b >>= k) = .ok r) : a * b < 2 ^ 64 ∧ k (a * b) = .ok r := by
  unfold chkMul64 at h
  split at h
  · exact ⟨by assumption, h⟩
  · exact Except.noConfusion h

theorem chkSub64_bind_ok {a b : Nat} {α : Type} {k : Nat → Except ErrorCode α} {r : α}
    (h : (chkSub64 a b >>= k) = .ok r) : b ≤ a ∧ k (a - b) = .ok r := by
  unfold chkSub64 at h
  split at h
  · exact ⟨by assumption, h⟩
  · exact Except.noConfusion h

theorem chkAdd32_bind_ok {a b : Nat} {α : Type} {k : Nat → Except ErrorCode α} {r : α}
    (h : (chkAdd32 a b >>= k) = .ok r) : a + b < 2 ^ 32 ∧ k (a + b) = .ok r := by
  unfold chkAdd32 at h
  split at h
  · exact ⟨by assumption, h⟩
  · exact Except.noConfusion h

theorem chkAdd8_bind_ok {a b : Nat} {α : Type} {k : Nat → Except ErrorCode α} {r : α}
    (h : (chkAdd8 a b >>= k) = .ok r) : a + b < 2 ^ 8 ∧ k (a + b) = .ok r := by
  unfold chkAdd8 at h
  split at h
  · exact ⟨by assumption, h⟩
  · exact Except.noConfusion h

theorem escrowOut_bind_ok {bal amt : Nat} {α : Type} {k : Nat → Except ErrorCode α} {r : α}
    (h : (escrowOut bal amt >>= k) = .ok r) : amt ≤ bal ∧ k (bal - amt) = .ok r := by
  unfold escrowOut at h
  split at h
  · exact ⟨by assumption, h⟩
  · exact Except.noConfusion h

theorem okOfOption_bind_ok {β α : Type} {o : Option β} {err : ErrorCode}
    {k : β → Except ErrorCode α} {r : α}
    (h : (okOfOption o err >>= k) = .ok r) :
    ∃ d, o = some d ∧ k d = .ok r := by
  cases o with
  | some d => exact ⟨d, rfl, h⟩
  | none => exact Except.noConfusion h

deriving instance DecidableEq for Except

/-- Extract the success value of an instruction result, with a default. -/
def okOr {α : Type} (x : Except ErrorCode α) (d : α) : α :=
  match x with
  | .ok a => a
  | .error _ => d

/-! ## C1: payout fee split is an exact partition of the recorded total -/

/-- C1: for every pool in status WinnerSelected with recorded total `T`
and fee rates `dev_bps`, `burn_bps`, `treasury_bps`, a successful
`payout_winner` pays `dev = T * dev_bps / 10000`,
`burn = T * burn_bps / 10000`, `treasury = T * treasury_bps / 10000`,
`winner = T - dev - burn - treasury` (all floor divisions), so
`dev + burn + treasury + winner + dust = T` and the escrow balance is
exactly 0 afterwards. -/
theorem C1_payout_fee_partition (ch : Chain) (clock : Clock) (u : Pubkey)
    (ch2 : Chain) (amts : PayoutAmounts)
    (h : payout_winner ch clock u = .ok (ch2, amts)) :
    ch.pool.status = .WinnerSelected ∧
    amts.dev = ch.pool.total_amount * ch.pool.dev_fee_bps / 10000 ∧
    amts.burn = ch.pool.total_amount * ch.pool.burn_fee_bps / 10000 ∧
    amts.treasury = ch.pool.total_amount * ch.pool.treasury_fee_bps / 10000 ∧
    amts.winner = ch.pool.total_amount - amts.dev - amts.burn - amts.treasury ∧
    amts.dev + amts.burn + amts.treasury + amts.winner + amts.dust =
      ch.pool.total_amount ∧
    ch2.poolBal = 0 ∧ ch2.pool.total_amount = 0 ∧ ch2.pool.status = .Ended := by
  unfold payout_winner Pool.assert_not_paused at h
  obtain ⟨-, h⟩ := req_bind_ok h
  obtain ⟨hstatus, h⟩ := req_bind_ok h
  obtain ⟨-, h⟩ := req_bind_ok h
  obtain ⟨-, h⟩ := req_bind_ok h
  obtain ⟨-, h⟩ := req_bind_ok h
  obtain ⟨hbal, h⟩ := req_bind_ok h
  obtain ⟨-, h⟩ := chkMul64_bind_ok h
  obtain ⟨-, h⟩ := chkMul64_bind_ok h
  obtain ⟨-, h⟩ := chkMul64_bind_ok h
  obtain ⟨-, h⟩ := chkAdd64_bind_ok h
  obtain ⟨-, h⟩ := chkAdd64_bind_ok h
  obtain ⟨hpaid, h⟩ := chkSub64_bind_ok h
  obtain ⟨hb1, h⟩ := escrowOut_bind_ok h
  obtain ⟨hb2, h⟩ := escrowOut_bind_ok h
  obtain ⟨hb3, h⟩ := escrowOut_bind_ok h
  obtain ⟨hb4, h⟩ := escrowOut_bind_ok h
  obtain ⟨hb5, h⟩ := escrowOut_bind_ok h
  obtain ⟨-, h⟩ := req_bind_ok h
  simp only [Except.ok.injEq, Prod.mk.injEq] at h
  obtain ⟨hch, hamts⟩ := h
  subst hch
  subst hamts
  refine ⟨hstatus, rfl, rfl, rfl, ?_, ?_, ?_, rfl, rfl⟩ <;>
    simp only [] <;> omega

/-- A pool in status WinnerSelected with the spec scenario's recorded
total and fee rates (`dev=500`, `burn=100`, `treasury=200` bps,
`total = 40_000000`). -/
def payoutDemoPool : Pool :=
  { pool_id := 1
    salt := List.replicate 32 0
    mint := 11
    creator := 21
    start_time := 1000
    duration := 604800
    expire_time := 605800
    end_time := 0
    unlock_time := 2000
    close_time := 0
    max_participants := 2
    lock_duration := 60
    lock_start_time := 1500
    amount := 20000000
    total_amount := 40000000
    total_volume := 40000000
    total_joins := 2
    total_donations := 0
    dev_wallet := 31
    dev_fee_bps := 500
    burn_fee_bps := 100
    treasury_wallet := 41
    treasury_fee_bps := 200
    randomness := 123
    randomness_account := 0
    randomness_deadline_slot := 0
    status := .WinnerSelected
    paused := false
    version := 1
    schema := 1
    config_hash := []
    allow_mock := false
    randomness_commit_slot := 0
    initialized := true
    last_join_time := 1500
    status_reason := 0
    winner := 22
    processing := false }

def demoMint : MintInfo :=
  { decimals := 6, supply := 1000000000000, freeze_authority := none, mint_authority := none }

def payoutDemoChain : Chain :=
  { pool := payoutDemoPool
    parts := { list := ((List.replicate 20 0).set 0 21).set 1 22, count := 2 }
    poolBal := 40000000
    mint := demoMint }

def payoutDemoClock : Clock := { unix_timestamp := 3000, slot := 50 }

def payoutDemoRes : Chain × PayoutAmounts :=
  okOr (payout_winner payoutDemoChain payoutDemoClock 31)
    (payoutDemoChain, { winner := 0, dev := 0, burn := 0, treasury := 0, dust := 0 })

/-- C1 witness: the spec scenario. The payout succeeds and pays
dev = 2_000000, burn = 400000, treasury = 800000, winner = 36_800000,
summing to the recorded total 40_000000, with the escrow emptied. -/
theorem C1_payout_fee_partition_witness :
    payout_winner payoutDemoChain payoutDemoClock 31 =
      .ok (payoutDemoRes.1, payoutDemoRes.2) ∧
    payoutDemoRes.2.dev = 2000000 ∧
    payoutDemoRes.2.burn = 400000 ∧
    payoutDemoRes.2.treasury = 800000 ∧
    payoutDemoRes.2.winner = 36800000 ∧
    (payoutDemoChain.pool.status = .WinnerSelected ∧
     payoutDemoRes.2.dev =
       payoutDemoChain.pool.total_amount * payoutDemoChain.pool.dev_fee_bps / 10000 ∧
     payoutDemoRes.2.burn =
       payoutDemoChain.pool.total_amount * payoutDemoChain.pool.burn_fee_bps / 10000 ∧
     payoutDemoRes.2.treasury =
       payoutDemoChain.pool.total_amount * payoutDemoChain.pool.treasury_fee_bps / 10000 ∧
     payoutDemoRes.2.winner = payoutDemoChain.pool.total_amount - payoutDemoRes.2.dev -
       payoutDemoRes.2.burn - payoutDemoRes.2.treasury ∧
     payoutDemoRes.2.dev + payoutDemoRes.2.burn + payoutDemoRes.2.treasury +
       payoutDemoRes.2.winner + payoutDemoRes.2.dust =
       payoutDemoChain.pool.total_amount ∧
     payoutDemoRes.1.poolBal = 0 ∧ payoutDemoRes.1.pool.total_amount = 0 ∧
     payoutDemoRes.1.pool.status = .Ended) :=
  ⟨by decide, by decide, by decide, by decide, by decide,
   C1_payout_fee_partition payoutDemoChain payoutDemoClock 31
     payoutDemoRes.1 payoutDemoRes.2 (by decide)⟩

set_option maxRecDepth 100000

@[simp]
theorem error_bind {e : ErrorCode} {α β : Type} {k : α → Except ErrorCode β} :
    (Except.error e >>= k) = (.error e : Except ErrorCode β) := rfl

@[simp]
theorem ok_bind {α β : Type} {a : α} {k : α → Except ErrorCode β} :
    (Except.ok a >>= k) = k a := rfl

/-! ## C8: unlock_pool guards and one-shot success -/

/-- C8: `unlock_pool` succeeds only when the caller is the operator
(dev_wallet), the status is Locked, and now is at least
`lock_start_time + lock_duration`; on success it sets the status to
Unlocked and records `unlock_time`; a second invocation by the same
caller then always fails with the invalid-status state error and, under
the transactional semantics, changes nothing. -/
theorem C8_unlock_pool_once (ch : Chain) (clock : Clock) (u : Pubkey) (ch2 : Chain)
    (h : unlock_pool ch clock u = .ok ch2) :
    u = ch.pool.dev_wallet ∧ ch.pool.status = .Locked ∧
    ch.pool.lock_start_time + ch.pool.lock_duration ≤ clock.unix_timestamp ∧
    ch2.pool.status = .Unlocked ∧
    ch2.pool.unlock_time = clock.unix_timestamp ∧
    (∀ clock2 : Clock, unlock_pool ch2 clock2 u = .error .InvalidPoolStatus) ∧
    (∀ clock2 : Clock, execOp ch2 (.unlock clock2 u) = ch2) := by
  unfold unlock_pool Pool.assert_not_paused Pool.assert_unlocked_time at h
  obtain ⟨hpaused, h⟩ := req_bind_ok h
  obtain ⟨hdev, h⟩ := req_bind_ok h
  obtain ⟨hlocked, h⟩ := req_bind_ok h
  obtain ⟨htime, h⟩ := req_bind_ok h
  obtain ⟨hls, h⟩ := req_bind_ok h
  simp only [Except.ok.injEq] at h
  subst h
  have hsecond : ∀ clock2 : Clock,
      unlock_pool { ch with pool := { ch.pool with
        status := .Unlocked, unlock_time := clock.unix_timestamp,
        status_reason := 0 } } clock2 u = .error .InvalidPoolStatus := by
    intro clock2
    unfold unlock_pool Pool.assert_not_paused
    simp [req, hpaused, hdev]
  refine ⟨hdev, hlocked, htime, rfl, rfl, hsecond, ?_⟩
  intro clock2
  simp [execOp, step, hsecond clock2]

/-- A Locked pool ready to unlock, for the C8 witness. -/
def unlockDemoChain : Chain :=
  { pool := { payoutDemoPool with
      status := .Locked
      status_reason := REASON_MAX_REACHED
      unlock_time := 0
      winner := 0 }
    parts := { list := ((List.replicate 20 0).set 0 21).set 1 22, count := 2 }
    poolBal := 40000000
    mint := demoMint }

def unlockDemoClock : Clock := { unix_timestamp := 1600, slot := 40 }

def unlockDemoRes : Chain :=
  okOr (unlock_pool unlockDemoChain unlockDemoClock 31) unlockDemoChain

/-- C8 witness: a concrete Locked pool whose lock duration has elapsed;
the first unlock by the operator succeeds and the conclusions follow. -/
theorem C8_unlock_pool_once_witness :
    unlock_pool unlockDemoChain unlockDemoClock 31 = .ok unlockDemoRes ∧
    (31 = unlockDemoChain.pool.dev_wallet ∧
     unlockDemoChain.pool.status = .Locked ∧
     unlockDemoChain.pool.lock_start_time + unlockDemoChain.pool.lock_duration ≤
       unlockDemoClock.unix_timestamp ∧
     unlockDemoRes.pool.status = .Unlocked ∧
     unlockDemoRes.pool.unlock_time = unlockDemoClock.unix_timestamp ∧
     (∀ clock2 : Clock, unlock_pool unlockDemoRes clock2 31 = .error .InvalidPoolStatus) ∧
     (∀ clock2 : Clock, execOp unlockDemoRes (.unlock clock2 31) = unlockDemoRes)) :=
  ⟨by decide,
   C8_unlock_pool_once unlockDemoChain unlockDemoClock 31 unlockDemoRes (by decide)⟩

/-! ## C6: join_pool locks the pool exactly when it reaches capacity -/

/-- C6: a successful `join_pool` happens only on an Open pool and raises
the registry count by one; when the new count equals
`max_participants`, the same operation also sets the status to Locked
and records `lock_start_time := now`; when it is below capacity, the
status remains Open and `lock_start_time` remains 0. -/
theorem C6_join_pool_autolock (ch : Chain) (clock : Clock) (u : Pubkey)
    (ub am : Nat) (ch2 : Chain)
    (h : join_pool ch clock u ub am = .ok ch2) :
    ch.pool.status = .Open ∧
    ch2.parts.count = ch.parts.count + 1 ∧
    (ch2.parts.count = ch.pool.max_participants →
      ch2.pool.status = .Locked ∧
      ch2.pool.lock_start_time = clock.unix_timestamp) ∧
    (ch2.parts.count ≠ ch.pool.max_participants →
      ch2.pool.status = .Open ∧ ch2.pool.lock_start_time = 0) := by
  unfold join_pool Pool.assert_not_paused Pool.assert_active_join_period
    Pool.can_join_status at h
  obtain ⟨hinit, h⟩ := req_bind_ok h
  obtain ⟨hpaused, h⟩ := req_bind_ok h
  obtain ⟨hperiod, h⟩ := req_bind_ok h
  obtain ⟨hopen, h⟩ := req_bind_ok h
  obtain ⟨hls, h⟩ := req_bind_ok h
  obtain ⟨hcfg, h⟩ := req_bind_ok h
  obtain ⟨hmul, h⟩ := chkMul64_bind_ok h
  obtain ⟨ham, h⟩ := req_bind_ok h
  obtain ⟨hmin, h⟩ := req_bind_ok h
  obtain ⟨hbal, h⟩ := req_bind_ok h
  obtain ⟨hc8, h⟩ := chkAdd8_bind_ok h
  obtain ⟨hmax, h⟩ := req_bind_ok h
  obtain ⟨hdup, h⟩ := req_bind_ok h
  obtain ⟨hta, h⟩ := chkAdd64_bind_ok h
  obtain ⟨htv, h⟩ := chkAdd64_bind_ok h
  obtain ⟨htj, h⟩ := chkAdd32_bind_ok h
  simp only [Except.ok.injEq] at h
  subst h
  by_cases hfull : ch.parts.count + 1 = ch.pool.max_participants
  · rw [if_pos hfull]
    exact ⟨hopen, rfl, fun _ => ⟨rfl, rfl⟩, fun hne => absurd hfull hne⟩
  · rw [if_neg hfull]
    exact ⟨hopen, rfl, fun heq => absurd heq hfull, fun _ => ⟨hopen, hls⟩⟩

/-- An Open two-seat pool with one participant (the creator), with a
valid config fingerprint, for the C6 witness. -/
def joinDemoPoolBase : Pool :=
  { payoutDemoPool with
    status := .Open
    status_reason := 0
    unlock_time := 0
    lock_start_time := 0
    winner := 0
    total_amount := 20000000
    total_volume := 20000000
    total_joins := 1
    salt := List.replicate 32 2 }

def joinDemoPool : Pool :=
  { joinDemoPoolBase with config_hash := configHashBytes joinDemoPoolBase }

def joinDemoChain : Chain :=
  { pool := joinDemoPool
    parts := { list := (List.replicate 20 0).set 0 21, count := 1 }
    poolBal := 20000000
    mint := demoMint }

def joinDemoClock : Clock := { unix_timestamp := 2000, slot := 60 }

def joinDemoRes : Chain :=
  okOr (join_pool joinDemoChain joinDemoClock 22 50000000 20000000) joinDemoChain

/-- C6 witness: the second participant joins a two-seat pool; the join
succeeds, the count reaches capacity, and the very same operation
performs the Locked transition and records the lock start time. -/
theorem C6_join_pool_autolock_witness :
    join_pool joinDemoChain joinDemoClock 22 50000000 20000000 = .ok joinDemoRes ∧
    joinDemoRes.parts.count = 2 ∧
    joinDemoRes.pool.status = .Locked ∧
    joinDemoRes.pool.lock_start_time = 2000 ∧
    (joinDemoChain.pool.status = .Open ∧
     joinDemoRes.parts.count = joinDemoChain.parts.count + 1 ∧
     (joinDemoRes.parts.count = joinDemoChain.pool.max_participants →
       joinDemoRes.pool.status = .Locked ∧
       joinDemoRes.pool.lock_start_time = joinDemoClock.unix_timestamp) ∧
     (joinDemoRes.parts.count ≠ joinDemoChain.pool.max_participants →
       joinDemoRes.pool.status = .Open ∧ joinDemoRes.pool.lock_start_time = 0)) :=
  ⟨by decide, by decide, by decide, by decide,
   C6_join_pool_autolock joinDemoChain joinDemoClock 22 50000000 20000000
     joinDemoRes (by decide)⟩

/-! ## List helper lemmas for the registry removal loop -/

theorem getD_set_self {l : List Pubkey} {i : Nat} {v : Pubkey} (h : i < l.length) :
    (l.set i v).getD i ZERO_PUBKEY = v := by
  simp [List.getD_eq_getElem?_getD, List.getElem?_set_self, h]

theorem getD_set_ne {l : List Pubkey} {i j : Nat} {v : Pubkey} (hne : i ≠ j) :
    (l.set i v).getD j ZERO_PUBKEY = l.getD j ZERO_PUBKEY := by
  simp [List.getD_eq_getElem?_getD, List.getElem?_set_ne hne]

/-- Characterization of the shift loop body iterated `m` times from
index `idx`: in-range entries in `[idx, idx+m)` take the value of their
right neighbour, everything else is untouched, and the length is
preserved. -/
theorem shiftLeftFrom_core (idx : Nat) :
    ∀ (m : Nat) (l : List Pubkey), idx + m < l.length →
      (((List.range m).foldl
        (fun acc k => acc.set (idx + k) (acc.getD (idx + k + 1) ZERO_PUBKEY)) l).length
          = l.length) ∧
      (∀ j, ((List.range m).foldl
          (fun acc k => acc.set (idx + k) (acc.getD (idx + k + 1) ZERO_PUBKEY)) l).getD j
            ZERO_PUBKEY =
        if idx ≤ j ∧ j < idx + m then l.getD (j + 1) ZERO_PUBKEY
        else l.getD j ZERO_PUBKEY) := by
  intro m
  induction m with
  | zero =>
    intro l _
    refine ⟨rfl, fun j => ?_⟩
    rw [if_neg (by omega)]
    rfl
  | succ m ih =>
    intro l hlen
    have hlen' : idx + m < l.length := by omega
    obtain ⟨ihlen, ihget⟩ := ih l hlen'
    rw [List.range_succ, List.foldl_append]
    simp only [List.foldl_cons, List.foldl_nil]
    constructor
    · rw [List.length_set]
      exact ihlen
    · intro j
      by_cases hj : j = idx + m
      · subst hj
        rw [getD_set_self (by omega : idx + m < _), ihget (idx + m + 1),
          if_neg (by omega), if_pos (by omega)]
      · rw [getD_set_ne (fun he => hj he.symm), ihget j]
        by_cases hin : idx ≤ j ∧ j < idx + m
        · rw [if_pos hin, if_pos (by omega)]
        · rw [if_neg hin, if_neg (by omega)]

theorem shiftLeftFrom_length {l : List Pubkey} {idx count : Nat}
    (h : idx < count) (hc : count ≤ l.length) :
    (shiftLeftFrom l idx count).length = l.length :=
  (shiftLeftFrom_core idx (count - 1 - idx) l (by omega)).1

theorem shiftLeftFrom_getD {l : List Pubkey} {idx count : Nat}
    (h : idx < count) (hc : count ≤ l.length) (j : Nat) :
    (shiftLeftFrom l idx count).getD j ZERO_PUBKEY =
      if idx ≤ j ∧ j < count - 1 then l.getD (j + 1) ZERO_PUBKEY
      else l.getD j ZERO_PUBKEY := by
  have := (shiftLeftFrom_core idx (count - 1 - idx) l (by omega)).2 j
  unfold shiftLeftFrom
  rw [this]
  by_cases hin : idx ≤ j ∧ j < count - 1
  · rw [if_pos (by omega), if_pos hin]
  · rw [if_neg (by omega), if_neg hin]

theorem findParticipant_spec {l : List Pubkey} {count : Nat} {k : Pubkey} {i : Nat}
    (h : findParticipant l count k = some i) :
    i < count ∧ l.getD i ZERO_PUBKEY = k := by
  unfold findParticipant at h
  have hmem := List.mem_of_find?_eq_some h
  have hpred := List.find?_some h
  rw [List.mem_range] at hmem
  exact ⟨hmem, by simpa using hpred⟩

/-! ## C7: refund amounts and registry removal after cancellation -/

/-- C7: after a pool is cancelled, a successful `claim_refund` by a
non-operator claimant refunds the full stake with zero penalty when the
claimant is not the creator, and destroys `floor(stake/20)` while
refunding the rest when the claimant is the creator; the claimant is
then removed from the registry by shifting all subsequent entries down
one slot, zeroing the last occupied slot, and decrementing the count by
one. -/
theorem C7_claim_refund_amounts_and_removal (ch : Chain) (clock : Clock) (u : Pubkey)
    (ch2 : Chain) (out : RefundOut)
    (h : claim_refund ch clock u = .ok (ch2, out))
    (hnotdev : u ≠ ch.pool.dev_wallet)
    (hlen : ch.parts.count ≤ ch.parts.list.length) :
    ch.pool.status = .Cancelled ∧
    (u = ch.pool.creator →
      out.burned = ch.pool.amount / 20 ∧
      out.to_user = ch.pool.amount - ch.pool.amount / 20) ∧
    (u ≠ ch.pool.creator → out.burned = 0 ∧ out.to_user = ch.pool.amount) ∧
    ∃ i, i < ch.parts.count ∧ ch.parts.list.getD i ZERO_PUBKEY = u ∧
      ch2.parts.count = ch.parts.count - 1 ∧
      (∀ j, j < i → ch2.parts.list.getD j ZERO_PUBKEY = ch.parts.list.getD j ZERO_PUBKEY) ∧
      (∀ j, i ≤ j → j < ch.parts.count - 1 →
        ch2.parts.list.getD j ZERO_PUBKEY = ch.parts.list.getD (j + 1) ZERO_PUBKEY) ∧
      ch2.parts.list.getD (ch.parts.count - 1) ZERO_PUBKEY = ZERO_PUBKEY := by
  unfold claim_refund Pool.assert_not_processing at h
  obtain ⟨hproc, h⟩ := req_bind_ok h
  obtain ⟨hstatus, h⟩ := req_bind_ok h
  obtain ⟨hreason, h⟩ := req_bind_ok h
  rw [if_neg hnotdev] at h
  obtain ⟨i, hfind, h⟩ := okOfOption_bind_ok h
  obtain ⟨hi, hiu⟩ := findParticipant_spec hfind
  obtain ⟨hb1, h⟩ := escrowOut_bind_ok h
  obtain ⟨hb2, h⟩ := escrowOut_bind_ok h
  simp only [Except.ok.injEq, Prod.mk.injEq] at h
  obtain ⟨hch, hout⟩ := h
  subst hch
  subst hout
  have hcnt : ch.parts.count - 1 < (shiftLeftFrom ch.parts.list i ch.parts.count).length := by
    rw [shiftLeftFrom_length hi hlen]; omega
  refine ⟨hstatus, ?_, ?_, i, hi, hiu, rfl, ?_, ?_, ?_⟩
  · intro hcr
    rw [if_pos hcr]
    exact ⟨rfl, rfl⟩
  · intro hcr
    rw [if_neg hcr]
    refine ⟨rfl, ?_⟩
    show ch.pool.amount - 0 = ch.pool.amount
    omega
  · intro j hj
    have hjne : ch.parts.count - 1 ≠ j := by omega
    show ((shiftLeftFrom ch.parts.list i ch.parts.count).set (ch.parts.count - 1)
      ZERO_PUBKEY).getD j ZERO_PUBKEY = _
    rw [getD_set_ne hjne, shiftLeftFrom_getD hi hlen, if_neg (by omega)]
  · intro j hij hj
    have hjne : ch.parts.count - 1 ≠ j := by omega
    show ((shiftLeftFrom ch.parts.list i ch.parts.count).set (ch.parts.count - 1)
      ZERO_PUBKEY).getD j ZERO_PUBKEY = _
    rw [getD_set_ne hjne, shiftLeftFrom_getD hi hlen, if_pos ⟨hij, hj⟩]
  · exact getD_set_self hcnt

/-- A cancelled two-participant pool (creator 21, participant 22),
reason owner-cancelled, for the C7 and C2 witnesses. -/
def refundDemoChain : Chain :=
  { pool := { payoutDemoPool with
      status := .Cancelled
      status_reason := REASON_CANCELLED
      close_time := 5000
      unlock_time := 0
      lock_start_time := 0
      winner := 0 }
    parts := { list := ((List.replicate 20 0).set 0 21).set 1 22, count := 2 }
    poolBal := 40000000
    mint := demoMint }

def refundDemoClock : Clock := { unix_timestamp := 6000, slot := 70 }

def refundDemoDummy : RefundOut := { to_user := 0, burned := 0, to_treasury := 0 }

/-- State and outflow after participant 22 (non-creator) claims. -/
def refundDemoRes1 : Chain × RefundOut :=
  okOr (claim_refund refundDemoChain refundDemoClock 22) (refundDemoChain, refundDemoDummy)

/-- State and outflow after the creator 21 then claims. -/
def refundDemoRes2 : Chain × RefundOut :=
  okOr (claim_refund refundDemoRes1.1 refundDemoClock 21) (refundDemoChain, refundDemoDummy)

/-- C7 witness: the spec scenario. The non-creator participant gets the
full stake back (20_000000, zero penalty); the creator then gets 95%
(19_000000) with 1_000000 destroyed; each claim removes the claimant
and decrements the count. -/
theorem C7_claim_refund_amounts_and_removal_witness :
    claim_refund refundDemoChain refundDemoClock 22 = .ok (refundDemoRes1.1, refundDemoRes1.2) ∧
    (22 : Pubkey) ≠ refundDemoChain.pool.dev_wallet ∧
    refundDemoChain.parts.count ≤ refundDemoChain.parts.list.length ∧
    refundDemoRes1.2.to_user = 20000000 ∧
    refundDemoRes1.2.burned = 0 ∧
    refundDemoRes1.1.parts.count = 1 ∧
    claim_refund refundDemoRes1.1 refundDemoClock 21 = .ok (refundDemoRes2.1, refundDemoRes2.2) ∧
    (21 : Pubkey) ≠ refundDemoRes1.1.pool.dev_wallet ∧
    refundDemoRes1.1.parts.count ≤ refundDemoRes1.1.parts.list.length ∧
    refundDemoRes2.2.to_user = 19000000 ∧
    refundDemoRes2.2.burned = 1000000 ∧
    refundDemoRes2.1.parts.count = 0 ∧
    (refundDemoChain.pool.status = .Cancelled ∧
     ((22 : Pubkey) = refundDemoChain.pool.creator →
       refundDemoRes1.2.burned = refundDemoChain.pool.amount / 20 ∧
       refundDemoRes1.2.to_user =
         refundDemoChain.pool.amount - refundDemoChain.pool.amount / 20) ∧
     ((22 : Pubkey) ≠ refundDemoChain.pool.creator →
       refundDemoRes1.2.burned = 0 ∧
       refundDemoRes1.2.to_user = refundDemoChain.pool.amount) ∧
     ∃ i, i < refundDemoChain.parts.count ∧
       refundDemoChain.parts.list.getD i ZERO_PUBKEY = 22 ∧
       refundDemoRes1.1.parts.count = refundDemoChain.parts.count - 1 ∧
       (∀ j, j < i → refundDemoRes1.1.parts.list.getD j ZERO_PUBKEY =
         refundDemoChain.parts.list.getD j ZERO_PUBKEY) ∧
       (∀ j, i ≤ j → j < refundDemoChain.parts.count - 1 →
         refundDemoRes1.1.parts.list.getD j ZERO_PUBKEY =
           refundDemoChain.parts.list.getD (j + 1) ZERO_PUBKEY) ∧
       refundDemoRes1.1.parts.list.getD (refundDemoChain.parts.count - 1) ZERO_PUBKEY =
         ZERO_PUBKEY) ∧
    ((21 : Pubkey) = refundDemoRes1.1.pool.creator →
      refundDemoRes2.2.burned = refundDemoRes1.1.pool.amount / 20 ∧
      refundDemoRes2.2.to_user =
        refundDemoRes1.1.pool.amount - refundDemoRes1.1.pool.amount / 20) :=
  ⟨by decide, by decide, by decide, by decide, by decide, by decide,
   by decide, by decide, by decide, by decide, by decide, by decide,
   C7_claim_refund_amounts_and_removal refundDemoChain refundDemoClock 22
     refundDemoRes1.1 refundDemoRes1.2 (by decide) (by decide) (by decide),
   (C7_claim_refund_amounts_and_removal refundDemoRes1.1 refundDemoClock 21
     refundDemoRes2.1 refundDemoRes2.2 (by decide) (by decide) (by decide)).2.1⟩

/-! ## C10: the operator forfeit path of claim_refund is frame-minimal -/

/-- C10: when `claim_refund` is invoked by the operator (dev_wallet) on
a Cancelled pool after the forfeit delay has elapsed since
`close_time`, the entire remaining escrow balance goes to the treasury
and the registry count is set to 0, but every pool field is left
unchanged: the status remains Cancelled (not advanced to Closed),
`total_amount` is not reset, and `close_time` is not updated. -/
theorem C10_claim_refund_dev_forfeit (ch : Chain) (clock : Clock)
    (ch2 : Chain) (out : RefundOut)
    (h : claim_refund ch clock ch.pool.dev_wallet = .ok (ch2, out)) :
    ch.pool.status = .Cancelled ∧
    ch.pool.close_time + FORFEIT_DELAY < clock.unix_timestamp ∧
    out.to_treasury = ch.poolBal ∧ out.to_user = 0 ∧ out.burned = 0 ∧
    ch2.poolBal = 0 ∧ ch2.parts.count = 0 ∧
    ch2.parts.list = ch.parts.list ∧
    ch2.pool = ch.pool ∧
    ch2.pool.status = .Cancelled ∧
    ch2.pool.total_amount = ch.pool.total_amount ∧
    ch2.pool.close_time = ch.pool.close_time := by
  unfold claim_refund Pool.assert_not_processing at h
  obtain ⟨hproc, h⟩ := req_bind_ok h
  obtain ⟨hstatus, h⟩ := req_bind_ok h
  obtain ⟨hreason, h⟩ := req_bind_ok h
  rw [if_pos rfl] at h
  obtain ⟨hdelay, h⟩ := req_bind_ok h
  simp only [Except.ok.injEq, Prod.mk.injEq] at h
  obtain ⟨hch, hout⟩ := h
  subst hch
  subst hout
  exact ⟨hstatus, hdelay, rfl, rfl, rfl, rfl, rfl, rfl, rfl, hstatus, rfl, rfl⟩

def forfeitDemoClock : Clock := { unix_timestamp := 2600000 + 5000 + 1, slot := 90 }

def forfeitDemoRes : Chain × RefundOut :=
  okOr (claim_refund refundDemoChain forfeitDemoClock 31) (refundDemoChain, refundDemoDummy)

/-- C10 witness: the operator sweeps a cancelled pool 30 days after
close: the whole balance (40_000000) goes to the treasury, the count is
zeroed, and the pool record (status, total_amount, close_time) is
untouched. -/
theorem C10_claim_refund_dev_forfeit_witness :
    claim_refund refundDemoChain forfeitDemoClock refundDemoChain.pool.dev_wallet =
      .ok (forfeitDemoRes.1, forfeitDemoRes.2) ∧
    forfeitDemoRes.2.to_treasury = 40000000 ∧
    forfeitDemoRes.1.pool.status = .Cancelled ∧
    forfeitDemoRes.1.pool.total_amount = 40000000 ∧
    forfeitDemoRes.1.pool.close_time = 5000 ∧
    forfeitDemoRes.1.parts.count = 0 ∧
    (refundDemoChain.pool.status = .Cancelled ∧
     refundDemoChain.pool.close_time + FORFEIT_DELAY < forfeitDemoClock.unix_timestamp ∧
     forfeitDemoRes.2.to_treasury = refundDemoChain.poolBal ∧
     forfeitDemoRes.2.to_user = 0 ∧ forfeitDemoRes.2.burned = 0 ∧
     forfeitDemoRes.1.poolBal = 0 ∧ forfeitDemoRes.1.parts.count = 0 ∧
     forfeitDemoRes.1.parts.list = refundDemoChain.parts.list ∧
     forfeitDemoRes.1.pool = refundDemoChain.pool ∧
     forfeitDemoRes.1.pool.status = .Cancelled ∧
     forfeitDemoRes.1.pool.total_amount = refundDemoChain.pool.total_amount ∧
     forfeitDemoRes.1.pool.close_time = refundDemoChain.pool.close_time) :=
  ⟨by decide, by decide, by decide, by decide, by decide, by decide,
   C10_claim_refund_dev_forfeit refundDemoChain forfeitDemoClock
     forfeitDemoRes.1 forfeitDemoRes.2 (by decide)⟩

/-! ## C3: winner selection is the hash-normalized index, always in range -/

/-- C3: on the oracle-reveal path (randomness data present with a
nonzero reveal slot), a successful `select_winner` computes the winner
index as the little-endian u64 taken from bytes 0..8 of
SHA-256(pool_id-le8 concatenated with value[0..16]) — that is
`normalizeRandomness` — reduced modulo the participant count `n`
(`1 ≤ n ≤ 20`); the index is always below `n` and the participant stored
at that index becomes the pool's winner. -/
theorem C3_select_winner_normalization (ch : Chain) (clock : Clock) (u : Pubkey)
    (rnd : RandAccount) (ch2 : Chain) (data : RandomnessData)
    (h : select_winner ch clock u rnd = .ok ch2)
    (hnm : ¬(ch.pool.allow_mock ∧ ch.pool.randomness_account = ZERO_PUBKEY))
    (hdata : rnd.data = some data)
    (hreveal : data.reveal_slot ≠ 0)
    (_hcap : ch.parts.count ≤ 20) :
    0 < ch.parts.count ∧
    normalizeRandomness ch.pool.pool_id (List.take 16 data.value) % ch.parts.count <
      ch.parts.count ∧
    ch2.pool.winner = ch.parts.list.getD
      (normalizeRandomness ch.pool.pool_id (List.take 16 data.value) % ch.parts.count)
      ZERO_PUBKEY ∧
    ch2.pool.randomness = leNat (List.take 16 data.value) ∧
    ch2.pool.status = .WinnerSelected := by
  unfold select_winner Pool.assert_not_paused at h
  obtain ⟨-, h⟩ := req_bind_ok h
  obtain ⟨-, h⟩ := req_bind_ok h
  obtain ⟨-, h⟩ := req_bind_ok h
  obtain ⟨-, h⟩ := req_bind_ok h
  obtain ⟨-, h⟩ := req_bind_ok h
  obtain ⟨-, h⟩ := req_bind_ok h
  obtain ⟨hcount, h⟩ := req_bind_ok h
  obtain ⟨-, h⟩ := req_bind_ok h
  rw [if_neg hnm] at h
  obtain ⟨-, h⟩ := req_bind_ok h
  obtain ⟨-, h⟩ := req_bind_ok h
  obtain ⟨d, hd, h⟩ := okOfOption_bind_ok h
  rw [hdata] at hd
  injection hd with hd
  subst hd
  obtain ⟨-, h⟩ := req_bind_ok h
  rw [if_neg hreveal] at h
  obtain ⟨-, h⟩ := req_bind_ok h
  obtain ⟨-, h⟩ := req_bind_ok h
  unfold select_finish at h
  obtain ⟨hidx, h⟩ := req_bind_ok h
  simp only [Except.ok.injEq] at h
  subst h
  exact ⟨hcount, hidx, rfl, rfl, rfl⟩

/-- An Unlocked pool bound to oracle account 55, with a valid config
fingerprint, awaiting winner selection. -/
def selectDemoPoolBase : Pool :=
  { payoutDemoPool with
    status := .Unlocked
    unlock_time := 2000
    lock_start_time := 1500
    winner := 0
    randomness := 0
    randomness_account := 55
    randomness_commit_slot := 5
    allow_mock := false
    salt := List.replicate 32 3 }

def selectDemoPool : Pool :=
  { selectDemoPoolBase with config_hash := configHashBytes selectDemoPoolBase }

def selectDemoChain : Chain :=
  { pool := selectDemoPool
    parts := { list := ((List.replicate 20 0).set 0 21).set 1 22, count := 2 }
    poolBal := 40000000
    mint := demoMint }

def selectDemoClock : Clock := { unix_timestamp := 3000, slot := 70 }

/-- A revealed 32-byte oracle value (bytes 1..32). -/
def selectDemoValue : List Nat := (List.range 32).map (fun i => i + 1)

def selectDemoData : RandomnessData :=
  { seed_slot := 10, reveal_slot := 20, value := selectDemoValue }

def selectDemoRand : RandAccount :=
  { key := 55, owner := SWITCHBOARD_ID, data := some selectDemoData }

def selectDemoRes : Chain :=
  okOr (select_winner selectDemoChain selectDemoClock 31 selectDemoRand) selectDemoChain

/-- C3 witness: a concrete oracle-revealed selection over 2
participants; the winner is the registry entry at the hash-normalized
index, which is below the count. -/
theorem C3_select_winner_normalization_witness :
    select_winner selectDemoChain selectDemoClock 31 selectDemoRand = .ok selectDemoRes ∧
    ¬(selectDemoChain.pool.allow_mock ∧
      selectDemoChain.pool.randomness_account = ZERO_PUBKEY) ∧
    selectDemoRand.data = some selectDemoData ∧
    selectDemoData.reveal_slot ≠ 0 ∧
    selectDemoChain.parts.count ≤ 20 ∧
    (0 < selectDemoChain.parts.count ∧
     normalizeRandomness selectDemoChain.pool.pool_id (List.take 16 selectDemoData.value) %
       selectDemoChain.parts.count < selectDemoChain.parts.count ∧
     selectDemoRes.pool.winner = selectDemoChain.parts.list.getD
       (normalizeRandomness selectDemoChain.pool.pool_id
         (List.take 16 selectDemoData.value) % selectDemoChain.parts.count)
       ZERO_PUBKEY ∧
     selectDemoRes.pool.randomness = leNat (List.take 16 selectDemoData.value) ∧
     selectDemoRes.pool.status = .WinnerSelected) :=
  ⟨by decide, by decide, by decide, by decide, by decide,
   C3_select_winner_normalization selectDemoChain selectDemoClock 31 selectDemoRand
     selectDemoRes selectDemoData (by decide) (by decide) (by decide) (by decide)
     (by decide)⟩

/-! ## C4: the emergency fallback needs allow_mock AND the delay (not OR) -/

/-- C4 counterexample: a pool with `allow_mock = false` whose oracle has
not revealed (reveal slot 0) although the emergency delay has long
elapsed past the unlock deadline; every other precondition of
`select_winner` holds (operator caller, Unlocked status, valid config
fingerprint, fresh commitment), yet the claimed emergency fallback does
not fire: the call fails with InvalidRandomness. The claim's disjunct
"whenever the oracle has failed to reveal for longer than the emergency
delay" is therefore false — the source requires the test flag too. -/
def c4SilentRand : RandAccount :=
  { key := 55, owner := SWITCHBOARD_ID
    data := some { seed_slot := 10, reveal_slot := 0, value := selectDemoValue } }

def c4Clock : Clock := { unix_timestamp := 90000, slot := 70 }

/-- C4 counterexample theorem (see `c4SilentRand`): with the emergency
delay elapsed but `allow_mock` disabled, `select_winner` fails instead
of succeeding via the fallback. -/
theorem C4_counterexample_oracle_silent :
    select_winner selectDemoChain c4Clock 31 c4SilentRand = .error .InvalidRandomness ∧
    selectDemoChain.pool.allow_mock = false ∧
    c4SilentRand.data = some { seed_slot := 10, reveal_slot := 0, value := selectDemoValue } ∧
    selectDemoChain.pool.unlock_time + EMERGENCY_DELAY < c4Clock.unix_timestamp ∧
    selectDemoChain.pool.status = .Unlocked ∧
    31 = selectDemoChain.pool.dev_wallet :=
  ⟨by decide, by decide, by decide, by decide, by decide, by decide⟩

/-- C4 (amended): when the oracle has not revealed (reveal slot 0), a
successful `select_winner` through the emergency fallback requires the
pool's test flag (`allow_mock`) to be enabled AND the emergency delay to
have elapsed past the unlock deadline AND the caller to be the operator
or the creator; the 128-bit fallback value is derived from the pool id,
the current slot and the creator identity via SHA-256. -/
theorem C4_emergency_fallback_conjunction (ch : Chain) (clock : Clock) (u : Pubkey)
    (rnd : RandAccount) (ch2 : Chain) (data : RandomnessData)
    (h : select_winner ch clock u rnd = .ok ch2)
    (hnm : ¬(ch.pool.allow_mock ∧ ch.pool.randomness_account = ZERO_PUBKEY))
    (hdata : rnd.data = some data)
    (hreveal : data.reveal_slot = 0) :
    ch.pool.allow_mock = true ∧
    ch.pool.unlock_time + EMERGENCY_DELAY < clock.unix_timestamp ∧
    (u = ch.pool.dev_wallet ∨ u = ch.pool.creator) ∧
    ch2.pool.randomness = emergencyRandomness ch.pool.pool_id clock.slot ch.pool.creator ∧
    ch2.pool.status = .WinnerSelected := by
  unfold select_winner Pool.assert_not_paused at h
  obtain ⟨-, h⟩ := req_bind_ok h
  obtain ⟨-, h⟩ := req_bind_ok h
  obtain ⟨-, h⟩ := req_bind_ok h
  obtain ⟨-, h⟩ := req_bind_ok h
  obtain ⟨-, h⟩ := req_bind_ok h
  obtain ⟨-, h⟩ := req_bind_ok h
  obtain ⟨-, h⟩ := req_bind_ok h
  obtain ⟨-, h⟩ := req_bind_ok h
  rw [if_neg hnm] at h
  obtain ⟨-, h⟩ := req_bind_ok h
  obtain ⟨-, h⟩ := req_bind_ok h
  obtain ⟨d, hd, h⟩ := okOfOption_bind_ok h
  rw [hdata] at hd
  injection hd with hd
  subst hd
  obtain ⟨-, h⟩ := req_bind_ok h
  rw [if_pos hreveal] at h
  obtain ⟨hmock, h⟩ := req_bind_ok h
  obtain ⟨hdelay, h⟩ := req_bind_ok h
  obtain ⟨hauth, h⟩ := req_bind_ok h
  unfold select_finish at h
  obtain ⟨hidx, h⟩ := req_bind_ok h
  simp only [Except.ok.injEq] at h
  subst h
  exact ⟨hmock, hdelay, hauth, rfl, rfl⟩

/-- A mock-enabled pool bound to oracle account 55 (so the stored-mock
branch is not taken), for the C4 witness. -/
def c4MockPoolBase : Pool :=
  { selectDemoPoolBase with allow_mock := true, salt := List.replicate 32 4 }

def c4MockPool : Pool :=
  { c4MockPoolBase with config_hash := configHashBytes c4MockPoolBase }

def c4MockChain : Chain :=
  { pool := c4MockPool
    parts := { list := ((List.replicate 20 0).set 0 21).set 1 22, count := 2 }
    poolBal := 40000000
    mint := demoMint }

def c4MockRes : Chain :=
  okOr (select_winner c4MockChain c4Clock 31 c4SilentRand) c4MockChain

/-- C4 witness (amended claim): with `allow_mock` enabled and the delay
elapsed, the operator's call succeeds via the fallback and persists the
SHA-256-derived pseudo-random value. -/
theorem C4_emergency_fallback_conjunction_witness :
    select_winner c4MockChain c4Clock 31 c4SilentRand = .ok c4MockRes ∧
    ¬(c4MockChain.pool.allow_mock ∧ c4MockChain.pool.randomness_account = ZERO_PUBKEY) ∧
    c4SilentRand.data = some { seed_slot := 10, reveal_slot := 0, value := selectDemoValue } ∧
    (c4MockChain.pool.allow_mock = true ∧
     c4MockChain.pool.unlock_time + EMERGENCY_DELAY < c4Clock.unix_timestamp ∧
     (31 = c4MockChain.pool.dev_wallet ∨ 31 = c4MockChain.pool.creator) ∧
     c4MockRes.pool.randomness =
       emergencyRandomness c4MockChain.pool.pool_id c4Clock.slot c4MockChain.pool.creator ∧
     c4MockRes.pool.status = .WinnerSelected) :=
  ⟨by decide, by decide, by decide,
   C4_emergency_fallback_conjunction c4MockChain c4Clock 31 c4SilentRand c4MockRes
     { seed_slot := 10, reveal_slot := 0, value := selectDemoValue }
     (by decide) (by decide) (by decide) (by decide)⟩

/-! ## C5: the fee-sum guard uses a wrapping u16 addition -/

/-- A fresh, never-initialized pool account (as Anchor zero-initializes
it) together with the demo mint, for creation traces. -/
def emptyPool : Pool :=
  { pool_id := 0
    salt := List.replicate 32 0
    mint := 11
    creator := 0
    start_time := 0
    duration := 0
    expire_time := 0
    end_time := 0
    unlock_time := 0
    close_time := 0
    max_participants := 0
    lock_duration := 0
    lock_start_time := 0
    amount := 0
    total_amount := 0
    total_volume := 0
    total_joins := 0
    total_donations := 0
    dev_wallet := 0
    dev_fee_bps := 0
    burn_fee_bps := 0
    treasury_wallet := 0
    treasury_fee_bps := 0
    randomness := 0
    randomness_account := 0
    randomness_deadline_slot := 0
    status := .Open
    paused := false
    version := 0
    schema := 0
    config_hash := []
    allow_mock := false
    randomness_commit_slot := 0
    initialized := false
    last_join_time := 0
    status_reason := 0
    winner := 0
    processing := false }

def emptyChain : Chain :=
  { pool := emptyPool
    parts := { list := List.replicate 20 0, count := 0 }
    poolBal := 0
    mint := demoMint }

def c5Clock : Clock := { unix_timestamp := 1000, slot := 40 }

def c5Res : Chain :=
  okOr (create_pool emptyChain c5Clock 21 100000000 (List.replicate 32 5) 2 60 20000000
    31 65535 1 41 0 false) emptyChain

/-- C5: the fee-rate validation of create_pool adds the three `u16`
rates with a plain (wrapping) addition, contrary to the spec's
"always checked, never wrapping" and to the `checked_*` arithmetic used
everywhere else: with `dev_fee_bps = 65535`, `burn_fee_bps = 1`,
`treasury_fee_bps = 0` the mathematical sum 65536 exceeds 10000, yet the
`u16` sum wraps to 0, the ExcessiveFees check passes, and the pool is
created with a recorded fee sum far above 100%. -/
theorem C5_fee_sum_guard_wraps :
    65535 + 1 + 0 > MAX_FEE_BPS ∧
    (65535 + 1 + 0) % 2 ^ 16 = 0 ∧
    create_pool emptyChain c5Clock 21 100000000 (List.replicate 32 5) 2 60 20000000
      31 65535 1 41 0 false = .ok c5Res ∧
    c5Res.pool.initialized = true ∧
    c5Res.pool.dev_fee_bps = 65535 ∧
    c5Res.pool.burn_fee_bps = 1 ∧
    c5Res.pool.treasury_fee_bps = 0 ∧
    c5Res.pool.dev_fee_bps + c5Res.pool.burn_fee_bps + c5Res.pool.treasury_fee_bps >
      MAX_FEE_BPS :=
  ⟨by decide, by decide, by decide, by decide, by decide, by decide, by decide, by decide⟩

/-! ## C2: total_amount does not track refund outflows -/

def c2Clock1 : Clock := { unix_timestamp := 1000, slot := 40 }

def c2Clock2 : Clock := { unix_timestamp := 1100, slot := 41 }

def c2Clock3 : Clock := { unix_timestamp := 1200, slot := 42 }

/-- Pool right after creation: the creator staked 20_000000. -/
def c2Ch1 : Chain :=
  okOr (create_pool emptyChain c2Clock1 21 100000000 (List.replicate 32 6) 2 60 20000000
    31 500 100 41 200 false) emptyChain

/-- Pool after the creator cancels it (no funds move). -/
def c2Ch2 : Chain := okOr (cancel_pool c2Ch1 c2Clock2 21) c2Ch1

/-- Pool and outflow after the creator claims their refund. -/
def c2Res3 : Chain × RefundOut :=
  okOr (claim_refund c2Ch2 c2Clock3 21) (c2Ch2, refundDemoDummy)

/-- C2 counterexample: a reachable three-step trace
(create → cancel → claim_refund). The refund moves the whole remaining
stake (19_000000 refunded + 1_000000 burned) out of the escrow, so the
claimed equation `total_amount = deposits + donations - payouts` forces
`total_amount = 20_000000 - 20_000000 = 0` afterwards — but the code
never decrements `total_amount` in claim_refund and it stays at
20_000000. -/
theorem C2_counterexample_refund_not_deducted :
    create_pool emptyChain c2Clock1 21 100000000 (List.replicate 32 6) 2 60 20000000
      31 500 100 41 200 false = .ok c2Ch1 ∧
    c2Ch1.pool.total_amount = 20000000 ∧
    c2Ch1.poolBal = 20000000 ∧
    cancel_pool c2Ch1 c2Clock2 21 = .ok c2Ch2 ∧
    c2Ch2.pool.total_amount = 20000000 ∧
    c2Ch2.poolBal = 20000000 ∧
    claim_refund c2Ch2 c2Clock3 21 = .ok (c2Res3.1, c2Res3.2) ∧
    c2Res3.2.to_user + c2Res3.2.burned = 20000000 ∧
    c2Res3.1.poolBal = 0 ∧
    c2Res3.1.pool.total_amount = 20000000 ∧
    c2Res3.1.pool.total_amount ≠
      c2Ch2.pool.total_amount - (c2Res3.2.to_user + c2Res3.2.burned) :=
  ⟨by decide, by decide, by decide, by decide, by decide, by decide,
   by decide, by decide, by decide, by decide, by decide⟩

/-- C2 (amended): `total_amount` accumulates stake deposits and
donations exactly, is reset to 0 by `payout_winner` (status Ended) and
by `finalize_forfeited_pool` (status Closed), but a successful
`claim_refund` by a claimant other than the operator moves the
claimant's stake out of the escrow while leaving `total_amount`
unchanged — refund outflows are not deducted. -/
theorem C2_total_amount_tracking :
    (∀ (ch : Chain) (clock : Clock) (u : Pubkey) (ub am : Nat) (ch2 : Chain),
      join_pool ch clock u ub am = .ok ch2 →
        ch2.pool.total_amount = ch.pool.total_amount + am ∧
        ch2.poolBal = ch.poolBal + am) ∧
    (∀ (ch : Chain) (clock : Clock) (ub am : Nat) (ch2 : Chain),
      donate ch clock ub am = .ok ch2 →
        ch2.pool.total_amount = ch.pool.total_amount + am ∧
        ch2.poolBal = ch.poolBal + am) ∧
    (∀ (ch : Chain) (clock : Clock) (u : Pubkey) (ch2 : Chain) (amts : PayoutAmounts),
      payout_winner ch clock u = .ok (ch2, amts) →
        ch2.pool.total_amount = 0 ∧ ch2.pool.status = .Ended ∧ ch2.poolBal = 0) ∧
    (∀ (ch : Chain) (clock : Clock) (u : Pubkey) (ch2 : Chain),
      finalize_forfeited_pool ch clock u = .ok ch2 →
        ch2.pool.total_amount = 0 ∧ ch2.pool.status = .Closed ∧ ch2.poolBal = 0) ∧
    (∀ (ch : Chain) (clock : Clock) (u : Pubkey) (ch2 : Chain) (out : RefundOut),
      claim_refund ch clock u = .ok (ch2, out) → u ≠ ch.pool.dev_wallet →
        ch2.pool.total_amount = ch.pool.total_amount ∧
        ch2.poolBal + out.to_user + out.burned = ch.poolBal) := by
  refine ⟨?_, ?_, ?_, ?_, ?_⟩
  · intro ch clock u ub am ch2 h
    unfold join_pool Pool.assert_not_paused Pool.assert_active_join_period
      Pool.can_join_status at h
    obtain ⟨-, h⟩ := req_bind_ok h
    obtain ⟨-, h⟩ := req_bind_ok h
    obtain ⟨-, h⟩ := req_bind_ok h
    obtain ⟨-, h⟩ := req_bind_ok h
    obtain ⟨-, h⟩ := req_bind_ok h
    obtain ⟨-, h⟩ := req_bind_ok h
    obtain ⟨-, h⟩ := chkMul64_bind_ok h
    obtain ⟨-, h⟩ := req_bind_ok h
    obtain ⟨-, h⟩ := req_bind_ok h
    obtain ⟨-, h⟩ := req_bind_ok h
    obtain ⟨-, h⟩ := chkAdd8_bind_ok h
    obtain ⟨-, h⟩ := req_bind_ok h
    obtain ⟨-, h⟩ := req_bind_ok h
    obtain ⟨-, h⟩ := chkAdd64_bind_ok h
    obtain ⟨-, h⟩ := chkAdd64_bind_ok h
    obtain ⟨-, h⟩ := chkAdd32_bind_ok h
    simp only [Except.ok.injEq] at h
    subst h
    split
    · exact ⟨rfl, rfl⟩
    · exact ⟨rfl, rfl⟩
  · intro ch clock ub am ch2 h
    unfold donate Pool.assert_not_paused at h
    obtain ⟨-, h⟩ := req_bind_ok h
    obtain ⟨-, h⟩ := req_bind_ok h
    obtain ⟨-, h⟩ := req_bind_ok h
    obtain ⟨-, h⟩ := req_bind_ok h
    unfold Pool.can_donate Pool.assert_active_join_period at h
    split at h
    · obtain ⟨-, h⟩ := req_bind_ok h
      obtain ⟨-, h⟩ := req_bind_ok h
      obtain ⟨-, h⟩ := req_bind_ok h
      obtain ⟨-, h⟩ := chkAdd64_bind_ok h
      obtain ⟨-, h⟩ := chkAdd64_bind_ok h
      simp only [Except.ok.injEq] at h
      subst h
      exact ⟨rfl, rfl⟩
    · split at h
      · obtain ⟨-, h⟩ := req_bind_ok h
        obtain ⟨-, h⟩ := req_bind_ok h
        obtain ⟨-, h⟩ := req_bind_ok h
        obtain ⟨-, h⟩ := chkAdd64_bind_ok h
        obtain ⟨-, h⟩ := chkAdd64_bind_ok h
        simp only [Except.ok.injEq] at h
        subst h
        exact ⟨rfl, rfl⟩
      · rw [error_bind] at h
        exact Except.noConfusion h
  · intro ch clock u ch2 amts h
    unfold payout_winner Pool.assert_not_paused at h
    obtain ⟨-, h⟩ := req_bind_ok h
    obtain ⟨-, h⟩ := req_bind_ok h
    obtain ⟨-, h⟩ := req_bind_ok h
    obtain ⟨-, h⟩ := req_bind_ok h
    obtain ⟨-, h⟩ := req_bind_ok h
    obtain ⟨-, h⟩ := req_bind_ok h
    obtain ⟨-, h⟩ := chkMul64_bind_ok h
    obtain ⟨-, h⟩ := chkMul64_bind_ok h
    obtain ⟨-, h⟩ := chkMul64_bind_ok h
    obtain ⟨-, h⟩ := chkAdd64_bind_ok h
    obtain ⟨-, h⟩ := chkAdd64_bind_ok h
    obtain ⟨-, h⟩ := chkSub64_bind_ok h
    obtain ⟨-, h⟩ := escrowOut_bind_ok h
    obtain ⟨-, h⟩ := escrowOut_bind_ok h
    obtain ⟨-, h⟩ := escrowOut_bind_ok h
    obtain ⟨-, h⟩ := escrowOut_bind_ok h
    obtain ⟨hb5, h⟩ := escrowOut_bind_ok h
    obtain ⟨hz, h⟩ := req_bind_ok h
    simp only [Except.ok.injEq, Prod.mk.injEq] at h
    obtain ⟨hch, -⟩ := h
    subst hch
    exact ⟨rfl, rfl, hz⟩
  · intro ch clock u ch2 h
    unfold finalize_forfeited_pool Pool.assert_not_paused at h
    obtain ⟨-, h⟩ := req_bind_ok h
    obtain ⟨-, h⟩ := req_bind_ok h
    obtain ⟨-, h⟩ := req_bind_ok h
    obtain ⟨-, h⟩ := req_bind_ok h
    obtain ⟨-, h⟩ := req_bind_ok h
    obtain ⟨-, h⟩ := req_bind_ok h
    obtain ⟨-, h⟩ := req_bind_ok h
    simp only [Except.ok.injEq] at h
    subst h
    exact ⟨rfl, rfl, rfl⟩
  · intro ch clock u ch2 out h hnotdev
    unfold claim_refund Pool.assert_not_processing at h
    obtain ⟨-, h⟩ := req_bind_ok h
    obtain ⟨-, h⟩ := req_bind_ok h
    obtain ⟨-, h⟩ := req_bind_ok h
    rw [if_neg hnotdev] at h
    obtain ⟨i, hfind, h⟩ := okOfOption_bind_ok h
    obtain ⟨hb1, h⟩ := escrowOut_bind_ok h
    obtain ⟨hb2, h⟩ := escrowOut_bind_ok h
    simp only [Except.ok.injEq, Prod.mk.injEq] at h
    obtain ⟨hch, hout⟩ := h
    subst hch
    subst hout
    refine ⟨rfl, ?_⟩
    dsimp only
    omega

/-- Donation demo: 25_000000 donated to the open two-seat pool. -/
def donateDemoRes : Chain :=
  okOr (donate joinDemoChain joinDemoClock 100000000 25000000) joinDemoChain

/-- Finalize demo: the cancelled two-participant pool is forfeited after
the 30-day delay. -/
def finalizeDemoRes : Chain :=
  okOr (finalize_forfeited_pool refundDemoChain forfeitDemoClock 31) refundDemoChain

/-- C2 witness (amended claim): concrete successful join, donation,
payout, forfeiture finalize and user refund, with the amended accounting
facts instantiated on each. -/
theorem C2_total_amount_tracking_witness :
    join_pool joinDemoChain joinDemoClock 22 50000000 20000000 = .ok joinDemoRes ∧
    (joinDemoRes.pool.total_amount = joinDemoChain.pool.total_amount + 20000000 ∧
     joinDemoRes.poolBal = joinDemoChain.poolBal + 20000000) ∧
    donate joinDemoChain joinDemoClock 100000000 25000000 = .ok donateDemoRes ∧
    (donateDemoRes.pool.total_amount = joinDemoChain.pool.total_amount + 25000000 ∧
     donateDemoRes.poolBal = joinDemoChain.poolBal + 25000000) ∧
    payout_winner payoutDemoChain payoutDemoClock 31 =
      .ok (payoutDemoRes.1, payoutDemoRes.2) ∧
    (payoutDemoRes.1.pool.total_amount = 0 ∧ payoutDemoRes.1.pool.status = .Ended ∧
     payoutDemoRes.1.poolBal = 0) ∧
    finalize_forfeited_pool refundDemoChain forfeitDemoClock 31 = .ok finalizeDemoRes ∧
    (finalizeDemoRes.pool.total_amount = 0 ∧ finalizeDemoRes.pool.status = .Closed ∧
     finalizeDemoRes.poolBal = 0) ∧
    claim_refund refundDemoChain refundDemoClock 22 =
      .ok (refundDemoRes1.1, refundDemoRes1.2) ∧
    (22 : Pubkey) ≠ refundDemoChain.pool.dev_wallet ∧
    (refundDemoRes1.1.pool.total_amount = refundDemoChain.pool.total_amount ∧
     refundDemoRes1.1.poolBal + refundDemoRes1.2.to_user + refundDemoRes1.2.burned =
       refundDemoChain.poolBal) :=
  ⟨by decide,
   C2_total_amount_tracking.1 joinDemoChain joinDemoClock 22 50000000 20000000
     joinDemoRes (by decide),
   by decide,
   C2_total_amount_tracking.2.1 joinDemoChain joinDemoClock 100000000 25000000
     donateDemoRes (by decide),
   by decide,
   C2_total_amount_tracking.2.2.1 payoutDemoChain payoutDemoClock 31
     payoutDemoRes.1 payoutDemoRes.2 (by decide),
   by decide,
   C2_total_amount_tracking.2.2.2.1 refundDemoChain forfeitDemoClock 31
     finalizeDemoRes (by decide),
   by decide, by decide,
   C2_total_amount_tracking.2.2.2.2 refundDemoChain refundDemoClock 22
     refundDemoRes1.1 refundDemoRes1.2 (by decide) (by decide)⟩

/-! ## C9: pausing a cancelled pool destroys the cancellation reason

The claim needs an invariant over all subsequent instruction sequences:
once a pool is Cancelled with a non-cancellation reason code (or Closed),
no instruction can ever restore a cancellation reason, so `claim_refund`
is permanently dead. The lemmas below invert each handler just far
enough to establish this. -/

/-- A state in which the user-refund path can never fire again: the pool
is Cancelled but its `status_reason` is no cancellation code, or the
pool is Closed (plus the standing flags `claim_refund` checks first). -/
def refundDead (ch : Chain) : Prop :=
  ch.pool.processing = false ∧ ch.pool.initialized = true ∧
  ((ch.pool.status = .Cancelled ∧ ch.pool.status_reason ≠ REASON_CANCELLED ∧
      ch.pool.status_reason ≠ REASON_ADMIN_CLOSED ∧
      ch.pool.status_reason ≠ REASON_EXPIRED) ∨
    ch.pool.status = .Closed)

/-- In a `refundDead` state, `claim_refund` always fails with the
invalid-status state error, for every caller and clock. -/
theorem claim_refund_dead {ch : Chain} (hd : refundDead ch) (clock : Clock) (u : Pubkey) :
    claim_refund ch clock u = .error .InvalidPoolStatus := by
  obtain ⟨hproc, hinit, hcase⟩ := hd
  unfold claim_refund Pool.assert_not_processing
  rcases hcase with ⟨hst, h5, h6, h1⟩ | hst
  · simp [req, hproc, hst, h5, h6, h1]
  · simp [req, hproc, hst]

theorem create_pool_inv {ch : Chain} {clock : Clock} {user : Pubkey} {ub : Nat}
    {salt : List Nat} {mp : Nat} {ld : Int} {am : Nat} {dw : Pubkey} {dfb bfb : Nat}
    {tw : Pubkey} {tfb : Nat} {amock : Bool} {ch2 : Chain}
    (h : create_pool ch clock user ub salt mp ld am dw dfb bfb tw tfb amock = .ok ch2) :
    ch.pool.initialized = false := by
  unfold create_pool at h
  exact (req_bind_ok h).1

theorem join_pool_inv {ch : Chain} {clock : Clock} {u : Pubkey} {ub am : Nat} {ch2 : Chain}
    (h : join_pool ch clock u ub am = .ok ch2) : ch.pool.status = .Open := by
  unfold join_pool Pool.assert_not_paused Pool.assert_active_join_period
    Pool.can_join_status at h
  obtain ⟨-, h⟩ := req_bind_ok h
  obtain ⟨-, h⟩ := req_bind_ok h
  obtain ⟨-, h⟩ := req_bind_ok h
  exact (req_bind_ok h).1

theorem donate_inv {ch : Chain} {clock : Clock} {ub am : Nat} {ch2 : Chain}
    (h : donate ch clock ub am = .ok ch2) :
    ch.pool.status = .Open ∨ ch.pool.status = .Locked := by
  unfold donate Pool.assert_not_paused at h
  obtain ⟨-, h⟩ := req_bind_ok h
  obtain ⟨-, h⟩ := req_bind_ok h
  obtain ⟨-, h⟩ := req_bind_ok h
  obtain ⟨-, h⟩ := req_bind_ok h
  unfold Pool.can_donate at h
  split at h
  · exact .inl (by assumption)
  · split at h
    · exact .inr (by assumption)
    · rw [error_bind] at h
      exact Except.noConfusion h

theorem set_lock_duration_inv {ch : Chain} {u : Pubkey} {d : Int} {ch2 : Chain}
    (h : set_lock_duration ch u d = .ok ch2) : ch.pool.status = .Open := by
  unfold set_lock_duration Pool.assert_not_paused Pool.assert_owner Pool.assert_open at h
  obtain ⟨-, h⟩ := req_bind_ok h
  obtain ⟨-, h⟩ := req_bind_ok h
  exact (req_bind_ok h).1

theorem cancel_pool_inv {ch : Chain} {clock : Clock} {u : Pubkey} {ch2 : Chain}
    (h : cancel_pool ch clock u = .ok ch2) : ch.pool.status = .Open := by
  unfold cancel_pool Pool.assert_not_paused Pool.assert_owner Pool.assert_open at h
  obtain ⟨-, h⟩ := req_bind_ok h
  obtain ⟨-, h⟩ := req_bind_ok h
  obtain ⟨-, h⟩ := req_bind_ok h
  exact (req_bind_ok h).1

theorem admin_close_pool_inv {ch : Chain} {clock : Clock} {u : Pubkey} {ch2 : Chain}
    (h : admin_close_pool ch clock u = .ok ch2) : ch.pool.status = .Open := by
  unfold admin_close_pool Pool.assert_not_paused Pool.assert_open at h
  obtain ⟨-, h⟩ := req_bind_ok h
  obtain ⟨-, h⟩ := req_bind_ok h
  exact (req_bind_ok h).1

theorem sweep_expired_pool_inv {ch : Chain} {clock : Clock} {u : Pubkey} {ch2 : Chain}
    (h : sweep_expired_pool ch clock u = .ok ch2) : ch.pool.status = .Open := by
  unfold sweep_expired_pool Pool.assert_not_paused Pool.assert_open at h
  obtain ⟨-, h⟩ := req_bind_ok h
  obtain ⟨-, h⟩ := req_bind_ok h
  obtain ⟨-, h⟩ := req_bind_ok h
  exact (req_bind_ok h).1

theorem unlock_pool_inv {ch : Chain} {clock : Clock} {u : Pubkey} {ch2 : Chain}
    (h : unlock_pool ch clock u = .ok ch2) : ch.pool.status = .Locked := by
  unfold unlock_pool Pool.assert_not_paused at h
  obtain ⟨-, h⟩ := req_bind_ok h
  obtain ⟨-, h⟩ := req_bind_ok h
  exact (req_bind_ok h).1

theorem request_randomness_inv {ch : Chain} {clock : Clock} {u : Pubkey}
    {rnd : RandAccount} {ch2 : Chain}
    (h : request_randomness ch clock u rnd = .ok ch2) : ch.pool.status = .Unlocked := by
  unfold request_randomness Pool.assert_not_paused at h
  obtain ⟨-, h⟩ := req_bind_ok h
  exact (req_bind_ok h).1

theorem select_winner_inv {ch : Chain} {clock : Clock} {u : Pubkey}
    {rnd : RandAccount} {ch2 : Chain}
    (h : select_winner ch clock u rnd = .ok ch2) :
    ch.pool.status ≠ .Cancelled ∧ ch.pool.status ≠ .Closed := by
  unfold select_winner Pool.assert_not_paused at h
  obtain ⟨-, h⟩ := req_bind_ok h
  obtain ⟨-, h⟩ := req_bind_ok h
  obtain ⟨hs, -⟩ := req_bind_ok h
  exact ⟨hs.2.1, hs.2.2⟩

theorem payout_winner_inv {ch : Chain} {clock : Clock} {u : Pubkey}
    {r : Chain × PayoutAmounts}
    (h : payout_winner ch clock u = .ok r) : ch.pool.status = .WinnerSelected := by
  unfold payout_winner Pool.assert_not_paused at h
  obtain ⟨-, h⟩ := req_bind_ok h
  exact (req_bind_ok h).1

theorem finalize_forfeited_pool_inv {ch : Chain} {clock : Clock} {u : Pubkey} {ch2 : Chain}
    (h : finalize_forfeited_pool ch clock u = .ok ch2) :
    ch.pool.status = .Cancelled ∧
    (ch.pool.status_reason = REASON_CANCELLED ∨
     ch.pool.status_reason = REASON_ADMIN_CLOSED ∨
     ch.pool.status_reason = REASON_EXPIRED) := by
  unfold finalize_forfeited_pool Pool.assert_not_paused at h
  obtain ⟨-, h⟩ := req_bind_ok h
  obtain ⟨-, h⟩ := req_bind_ok h
  obtain ⟨hs, h⟩ := req_bind_ok h
  obtain ⟨hr, -⟩ := req_bind_ok h
  exact ⟨hs, hr⟩

theorem rent_recipient_bind_ok {pool : Pool} {u : Pubkey} {now : Int} {α : Type}
    {k : Pubkey → Except ErrorCode α} {r : α}
    (h : (rent_recipient_of pool u now >>= k) = .ok r) :
    k pool.treasury_wallet = .ok r ∨ k pool.creator = .ok r := by
  unfold rent_recipient_of at h
  split at h
  · unfold req at h
    split at h
    · exact .inl h
    · exact Except.noConfusion h
  · exact .inr h

theorem claim_rent_inv {ch : Chain} {clock : Clock} {u ct : Pubkey} {ch2 : Chain}
    (h : claim_rent ch clock u ct = .ok ch2) :
    ch2.pool.status = .Closed ∧ ch2.pool.processing = ch.pool.processing ∧
    ch2.pool.initialized = ch.pool.initialized := by
  unfold claim_rent at h
  obtain ⟨-, h⟩ := req_bind_ok h
  obtain ⟨-, h⟩ := req_bind_ok h
  obtain ⟨-, h⟩ := req_bind_ok h
  rcases rent_recipient_bind_ok h with h | h <;>
  · obtain ⟨-, h⟩ := req_bind_ok h
    split at h
    · simp only [Except.ok.injEq] at h
      subst h
      exact ⟨rfl, rfl, rfl⟩
    · obtain ⟨-, h⟩ := req_bind_ok h
      simp only [Except.ok.injEq] at h
      subst h
      exact ⟨rfl, rfl, rfl⟩

theorem pause_pool_inv {ch : Chain} {u : Pubkey} {ch2 : Chain}
    (h : pause_pool ch u = .ok ch2) :
    ch.pool.status ≠ .Ended ∧ ch.pool.status ≠ .Closed ∧
    ch2.pool.status = ch.pool.status ∧ ch2.pool.status_reason = REASON_PAUSED ∧
    ch2.pool.processing = ch.pool.processing ∧
    ch2.pool.initialized = ch.pool.initialized := by
  unfold pause_pool at h
  obtain ⟨-, h⟩ := req_bind_ok h
  obtain ⟨hst, h⟩ := req_bind_ok h
  simp only [Except.ok.injEq] at h
  subst h
  exact ⟨hst.1, hst.2, rfl, rfl, rfl, rfl⟩

theorem unpause_pool_inv {ch : Chain} {u : Pubkey} {ch2 : Chain}
    (h : unpause_pool ch u = .ok ch2) :
    ch.pool.status ≠ .Ended ∧ ch.pool.status ≠ .Closed ∧
    ch2.pool.status = ch.pool.status ∧ ch2.pool.status_reason = 0 ∧
    ch2.pool.processing = ch.pool.processing ∧
    ch2.pool.initialized = ch.pool.initialized := by
  unfold unpause_pool at h
  obtain ⟨-, h⟩ := req_bind_ok h
  obtain ⟨hst, h⟩ := req_bind_ok h
  simp only [Except.ok.injEq] at h
  subst h
  exact ⟨hst.1, hst.2, rfl, rfl, rfl, rfl⟩

theorem force_expire_inv {ch : Chain} {clock : Clock} {u : Pubkey} {ch2 : Chain}
    (h : force_expire ch clock u = .ok ch2) :
    ch2.pool.status = ch.pool.status ∧ ch2.pool.status_reason = ch.pool.status_reason ∧
    ch2.pool.processing = ch.pool.processing ∧
    ch2.pool.initialized = ch.pool.initialized := by
  unfold force_expire at h
  obtain ⟨-, h⟩ := req_bind_ok h
  obtain ⟨-, h⟩ := req_bind_ok h
  obtain ⟨-, h⟩ := req_bind_ok h
  simp only [Except.ok.injEq] at h
  subst h
  exact ⟨rfl, rfl, rfl, rfl⟩

/-- `refundDead` is preserved by every instruction, under the
transactional (all-or-nothing) step semantics. -/
theorem refundDead_execOp {ch : Chain} (op : Op) (hd : refundDead ch) :
    refundDead (execOp ch op) := by
  obtain ⟨hproc, hinit, hcase⟩ := hd
  have statusContra : ∀ {s : PoolStatus}, ch.pool.status = s →
      s ≠ .Cancelled → s ≠ .Closed → False := by
    intro s hs hnc hncl
    rcases hcase with ⟨hst2, -, -, -⟩ | hst2 <;> rw [hs] at hst2
    · exact hnc hst2
    · exact hncl hst2
  cases op with
  | create clock user ub salt mp ld am dw dfb bfb tw tfb amock =>
    unfold execOp
    cases hstep : step ch (.create clock user ub salt mp ld am dw dfb bfb tw tfb amock) with
    | error e => exact ⟨hproc, hinit, hcase⟩
    | ok ch2 =>
      simp only [step] at hstep
      have hfalse := create_pool_inv hstep
      rw [hinit] at hfalse
      exact Bool.noConfusion hfalse
  | join clock user ub am =>
    unfold execOp
    cases hstep : step ch (.join clock user ub am) with
    | error e => exact ⟨hproc, hinit, hcase⟩
    | ok ch2 =>
      simp only [step] at hstep
      exact (statusContra (join_pool_inv hstep) (by decide) (by decide)).elim
  | donateOp clock ub am =>
    unfold execOp
    cases hstep : step ch (.donateOp clock ub am) with
    | error e => exact ⟨hproc, hinit, hcase⟩
    | ok ch2 =>
      simp only [step] at hstep
      rcases donate_inv hstep with hs | hs
      · exact (statusContra hs (by decide) (by decide)).elim
      · exact (statusContra hs (by decide) (by decide)).elim
  | setLockDuration user d =>
    unfold execOp
    cases hstep : step ch (.setLockDuration user d) with
    | error e => exact ⟨hproc, hinit, hcase⟩
    | ok ch2 =>
      simp only [step] at hstep
      exact (statusContra (set_lock_duration_inv hstep) (by decide) (by decide)).elim
  | cancel clock user =>
    unfold execOp
    cases hstep : step ch (.cancel clock user) with
    | error e => exact ⟨hproc, hinit, hcase⟩
    | ok ch2 =>
      simp only [step] at hstep
      exact (statusContra (cancel_pool_inv hstep) (by decide) (by decide)).elim
  | adminClose clock user =>
    unfold execOp
    cases hstep : step ch (.adminClose clock user) with
    | error e => exact ⟨hproc, hinit, hcase⟩
    | ok ch2 =>
      simp only [step] at hstep
      exact (statusContra (admin_close_pool_inv hstep) (by decide) (by decide)).elim
  | sweepExpired clock user =>
    unfold execOp
    cases hstep : step ch (.sweepExpired clock user) with
    | error e => exact ⟨hproc, hinit, hcase⟩
    | ok ch2 =>
      simp only [step] at hstep
      exact (statusContra (sweep_expired_pool_inv hstep) (by decide) (by decide)).elim
  | unlock clock user =>
    unfold execOp
    cases hstep : step ch (.unlock clock user) with
    | error e => exact ⟨hproc, hinit, hcase⟩
    | ok ch2 =>
      simp only [step] at hstep
      exact (statusContra (unlock_pool_inv hstep) (by decide) (by decide)).elim
  | requestRand clock user rnd =>
    unfold execOp
    cases hstep : step ch (.requestRand clock user rnd) with
    | error e => exact ⟨hproc, hinit, hcase⟩
    | ok ch2 =>
      simp only [step] at hstep
      exact (statusContra (request_randomness_inv hstep) (by decide) (by decide)).elim
  | selectWin clock user rnd =>
    unfold execOp
    cases hstep : step ch (.selectWin clock user rnd) with
    | error e => exact ⟨hproc, hinit, hcase⟩
    | ok ch2 =>
      simp only [step] at hstep
      obtain ⟨hnc, hncl⟩ := select_winner_inv hstep
      rcases hcase with ⟨hst2, -, -, -⟩ | hst2
      · exact absurd hst2 hnc
      · exact absurd hst2 hncl
  | payout clock user =>
    unfold execOp
    cases hstep : step ch (.payout clock user) with
    | error e => exact ⟨hproc, hinit, hcase⟩
    | ok ch2 =>
      exfalso
      simp only [step, Except.map] at hstep
      split at hstep
      next e heq => exact Except.noConfusion hstep
      next a heq => exact statusContra (payout_winner_inv heq) (by decide) (by decide)
  | refund clock user =>
    unfold execOp
    cases hstep : step ch (.refund clock user) with
    | error e => exact ⟨hproc, hinit, hcase⟩
    | ok ch2 =>
      exfalso
      simp only [step] at hstep
      rw [claim_refund_dead ⟨hproc, hinit, hcase⟩ clock user] at hstep
      exact Except.noConfusion hstep
  | rent clock user ct =>
    unfold execOp
    cases hstep : step ch (.rent clock user ct) with
    | error e => exact ⟨hproc, hinit, hcase⟩
    | ok ch2 =>
      simp only [step] at hstep
      obtain ⟨hclosed, hprocEq, hinitEq⟩ := claim_rent_inv hstep
      exact ⟨hprocEq.trans hproc, hinitEq.trans hinit, .inr hclosed⟩
  | pause user =>
    unfold execOp
    cases hstep : step ch (.pause user) with
    | error e => exact ⟨hproc, hinit, hcase⟩
    | ok ch2 =>
      simp only [step] at hstep
      obtain ⟨-, hncl, hstEq, hreason, hprocEq, hinitEq⟩ := pause_pool_inv hstep
      refine ⟨hprocEq.trans hproc, hinitEq.trans hinit, ?_⟩
      rcases hcase with ⟨hst2, -, -, -⟩ | hst2
      · exact .inl ⟨hstEq.trans hst2, by rw [hreason]; decide, by rw [hreason]; decide,
          by rw [hreason]; decide⟩
      · exact absurd hst2 hncl
  | unpause user =>
    unfold execOp
    cases hstep : step ch (.unpause user) with
    | error e => exact ⟨hproc, hinit, hcase⟩
    | ok ch2 =>
      simp only [step] at hstep
      obtain ⟨-, hncl, hstEq, hreason, hprocEq, hinitEq⟩ := unpause_pool_inv hstep
      refine ⟨hprocEq.trans hproc, hinitEq.trans hinit, ?_⟩
      rcases hcase with ⟨hst2, -, -, -⟩ | hst2
      · exact .inl ⟨hstEq.trans hst2, by rw [hreason]; decide, by rw [hreason]; decide,
          by rw [hreason]; decide⟩
      · exact absurd hst2 hncl
  | forceExpireOp clock user =>
    unfold execOp
    cases hstep : step ch (.forceExpireOp clock user) with
    | error e => exact ⟨hproc, hinit, hcase⟩
    | ok ch2 =>
      simp only [step] at hstep
      obtain ⟨hstEq, hreasonEq, hprocEq, hinitEq⟩ := force_expire_inv hstep
      refine ⟨hprocEq.trans hproc, hinitEq.trans hinit, ?_⟩
      rw [hstEq, hreasonEq]
      exact hcase
  | finalizeForfeited clock user =>
    unfold execOp
    cases hstep : step ch (.finalizeForfeited clock user) with
    | error e => exact ⟨hproc, hinit, hcase⟩
    | ok ch2 =>
      exfalso
      simp only [step] at hstep
      obtain ⟨hst, hrsn⟩ := finalize_forfeited_pool_inv hstep
      rcases hcase with ⟨hst2, h5, h6, h1⟩ | hst2
      · rcases hrsn with h | h | h
        · exact h5 h
        · exact h6 h
        · exact h1 h
      · rw [hst2] at hst
        exact PoolStatus.noConfusion hst

/-- `refundDead` is preserved by every sequence of instructions. -/
theorem refundDead_steps {ch : Chain} (l : List Op) (hd : refundDead ch) :
    refundDead (steps ch l) := by
  induction l generalizing ch with
  | nil => exact hd
  | cons op t ih => exact ih (refundDead_execOp op hd)

/-- C9: pausing a Cancelled pool overwrites `status_reason` with the
paused code 2, a subsequent unpause resets it to 0 (not to the original
cancellation reason), and since `claim_refund` demands a cancellation
reason code (5, 6 or 1), every `claim_refund` after the pause/unpause
cycle — even after any further sequence of instructions — fails with the
invalid-status error: the refunds are permanently unclaimable through
that path. -/
theorem C9_pause_unpause_bricks_refunds (ch : Chain) (u1 u2 : Pubkey) (ch1 ch2 : Chain)
    (hst : ch.pool.status = .Cancelled)
    (hproc : ch.pool.processing = false)
    (hinit : ch.pool.initialized = true)
    (hp : pause_pool ch u1 = .ok ch1)
    (hu : unpause_pool ch1 u2 = .ok ch2) :
    ch1.pool.status_reason = REASON_PAUSED ∧
    ch1.pool.status = .Cancelled ∧
    ch2.pool.status_reason = 0 ∧
    ch2.pool.status = .Cancelled ∧
    ∀ (l : List Op) (clock : Clock) (v : Pubkey),
      claim_refund (steps ch2 l) clock v = .error .InvalidPoolStatus := by
  obtain ⟨-, -, hst1, hr1, hpr1, hin1⟩ := pause_pool_inv hp
  obtain ⟨-, -, hst2, hr2, hpr2, hin2⟩ := unpause_pool_inv hu
  have hst1c : ch1.pool.status = .Cancelled := hst1.trans hst
  have hst2c : ch2.pool.status = .Cancelled := hst2.trans hst1c
  have hdead : refundDead ch2 :=
    ⟨hpr2.trans (hpr1.trans hproc), hin2.trans (hin1.trans hinit),
     .inl ⟨hst2c, by rw [hr2]; decide, by rw [hr2]; decide, by rw [hr2]; decide⟩⟩
  refine ⟨hr1, hst1c, hr2, hst2c, ?_⟩
  intro l clock v
  exact claim_refund_dead (refundDead_steps l hdead) clock v

/-- The cancelled demo pool after the operator pauses it. -/
def c9Ch1 : Chain := okOr (pause_pool refundDemoChain 31) refundDemoChain

/-- ... and after the operator unpauses it again. -/
def c9Ch2 : Chain := okOr (unpause_pool c9Ch1 31) c9Ch1

/-- C9 witness: the cancelled demo pool (reason 5) is paused and
unpaused by the operator; afterwards the reason is 0 and (by the
theorem) claim_refund fails with the invalid-status error after every
further instruction sequence. -/
theorem C9_pause_unpause_bricks_refunds_witness :
    refundDemoChain.pool.status = .Cancelled ∧
    refundDemoChain.pool.status_reason = REASON_CANCELLED ∧
    refundDemoChain.pool.processing = false ∧
    refundDemoChain.pool.initialized = true ∧
    pause_pool refundDemoChain 31 = .ok c9Ch1 ∧
    unpause_pool c9Ch1 31 = .ok c9Ch2 ∧
    (c9Ch1.pool.status_reason = REASON_PAUSED ∧
     c9Ch1.pool.status = .Cancelled ∧
     c9Ch2.pool.status_reason = 0 ∧
     c9Ch2.pool.status = .Cancelled ∧
     ∀ (l : List Op) (clock : Clock) (v : Pubkey),
       claim_refund (steps c9Ch2 l) clock v = .error .InvalidPoolStatus) :=
  ⟨by decide, by decide, by decide, by decide, by decide, by decide,
   C9_pause_unpause_bricks_refunds refundDemoChain 31 31 c9Ch1 c9Ch2
     (by decide) (by decide) (by decide) (by decide) (by decide)⟩

end ML
